import Mathlib

/-! BlueBall, the "hello triangle" program.

A shallow embedding of `src/main.cpp` and `src/HelloGraphicsApplication.cpp`.

The program talks to two outside parties: the SDL3 library and the file system.
Both are modelled by a `Host` record holding the answer the outside gives to each
call.  Every call the program makes is appended, with its arguments and its answer,
to a trace.  Pointers are natural numbers and `0` is the null pointer.  The `while`
loop of `mainLoop` consumes one `Frame` of host answers per iteration; when the
supplied frames are used up and the loop has not ended, the run is `running`.  The pending
event queue of a frame is a finite list, so the loop of `pollEvents` ends.  Enumerations
and structures of the SDL headers are kept symbolic, with the fields the program sets.
-/

namespace BlueBall

/-! ## SDL data -/

/-- An opaque pointer handed out by SDL; `0` is `NULL`. -/
abbrev Handle := Nat

/-- One byte of a file. -/
abbrev Byte := Fin 256

/-- Subsystem flags of `SDL_Init`. -/
inductive SDL_InitFlag where
  | SDL_INIT_AUDIO
  | SDL_INIT_VIDEO
  | SDL_INIT_EVENTS
  deriving DecidableEq

/-- Window flags of `SDL_CreateWindow`. -/
inductive SDL_WindowFlag where
  | SDL_WINDOW_FULLSCREEN
  | SDL_WINDOW_RESIZABLE
  deriving DecidableEq

/-- Shader formats of the SDL GPU API. -/
inductive SDL_GPUShaderFormat where
  | SDL_GPU_SHADERFORMAT_INVALID
  | SDL_GPU_SHADERFORMAT_SPIRV
  | SDL_GPU_SHADERFORMAT_DXIL
  | SDL_GPU_SHADERFORMAT_MSL
  deriving DecidableEq

/-- Shader stages of the SDL GPU API. -/
inductive SDL_GPUShaderStage where
  | SDL_GPU_SHADERSTAGE_VERTEX
  | SDL_GPU_SHADERSTAGE_FRAGMENT
  deriving DecidableEq

/-- Primitive topologies of the SDL GPU API. -/
inductive SDL_GPUPrimitiveType where
  | SDL_GPU_PRIMITIVETYPE_TRIANGLELIST
  | SDL_GPU_PRIMITIVETYPE_TRIANGLESTRIP
  | SDL_GPU_PRIMITIVETYPE_LINELIST
  | SDL_GPU_PRIMITIVETYPE_LINESTRIP
  | SDL_GPU_PRIMITIVETYPE_POINTLIST
  deriving DecidableEq

/-- Load operations of a colour target. -/
inductive SDL_GPULoadOp where
  | SDL_GPU_LOADOP_LOAD
  | SDL_GPU_LOADOP_CLEAR
  | SDL_GPU_LOADOP_DONT_CARE
  deriving DecidableEq

/-- Store operations of a colour target. -/
inductive SDL_GPUStoreOp where
  | SDL_GPU_STOREOP_STORE
  | SDL_GPU_STOREOP_DONT_CARE
  | SDL_GPU_STOREOP_RESOLVE
  | SDL_GPU_STOREOP_RESOLVE_AND_STORE
  deriving DecidableEq

/-- The `type` field of an `SDL_Event`: the two types `pollEvents` names, and all others. -/
inductive SDL_EventType where
  | SDL_EVENT_QUIT
  | SDL_EVENT_WINDOW_CLOSE_REQUESTED
  | other (code : Nat)
  deriving DecidableEq

/-- The fields of `SDL_GPUShaderCreateInfo` that `createShader` sets. -/
structure SDL_GPUShaderCreateInfo where
  code_size : Nat
  code : List Byte
  entrypoint : String
  format : SDL_GPUShaderFormat
  stage : SDL_GPUShaderStage
  deriving DecidableEq

/-- The fields of `SDL_GPUGraphicsPipelineCreateInfo` that `createGraphicsPipeline` sets;
`color_target_format` is the `format` of the one colour target description. -/
structure SDL_GPUGraphicsPipelineCreateInfo where
  vertex_shader : Handle
  fragment_shader : Handle
  primitive_type : SDL_GPUPrimitiveType
  color_target_format : Nat
  num_color_targets : Nat
  deriving DecidableEq

/-- The fields of `SDL_GPUColorTargetInfo` that `mainLoop` sets.  The four components of
`clear_color` are kept in tenths: `0.1f, 0.2f, 0.3f, 1.0f` is `(1, 2, 3, 10)`. -/
structure SDL_GPUColorTargetInfo where
  texture : Handle
  clear_color : Nat × Nat × Nat × Nat
  load_op : SDL_GPULoadOp
  store_op : SDL_GPUStoreOp
  deriving DecidableEq

/-! ## The trace -/

/-- One call made by the program, with its arguments and, last, the answer it got. -/
inductive Call where
  | SDL_Init (flags : List SDL_InitFlag) (result : Bool)
  | SDL_CreateWindow (title : String) (w h : Nat) (flags : List SDL_WindowFlag)
      (result : Handle)
  | SDL_CreateGPUDevice (format : SDL_GPUShaderFormat) (debug_mode : Bool)
      (name : Option String) (result : Handle)
  | SDL_ClaimWindowForGPUDevice (device window : Handle) (result : Bool)
  | ifstream_open (path : String) (is_open : Bool)
  | SDL_CreateGPUShader (device : Handle) (createinfo : SDL_GPUShaderCreateInfo)
      (result : Handle)
  | SDL_GetGPUSwapchainTextureFormat (device window : Handle) (result : Nat)
  | SDL_CreateGPUGraphicsPipeline (device : Handle)
      (createinfo : SDL_GPUGraphicsPipelineCreateInfo) (result : Handle)
  | SDL_ReleaseGPUShader (device shader : Handle)
  | SDL_PollEvent (result : Option SDL_EventType)
  | SDL_AcquireGPUCommandBuffer (device : Handle) (result : Handle)
  | SDL_WaitAndAcquireGPUSwapchainTexture (command_buffer window : Handle)
      (result : Bool) (swapchain_texture : Handle)
  | SDL_BeginGPURenderPass (command_buffer : Handle)
      (color_target_info : SDL_GPUColorTargetInfo) (num_color_targets : Nat)
      (result : Handle)
  | SDL_BindGPUGraphicsPipeline (render_pass pipeline : Handle)
  | SDL_DrawGPUPrimitives (render_pass : Handle)
      (num_vertices num_instances first_vertex first_instance : Nat)
  | SDL_EndGPURenderPass (render_pass : Handle)
  | SDL_SubmitGPUCommandBuffer (command_buffer : Handle) (result : Bool)
  | SDL_GetError (result : String)
  | SDL_DestroyWindow (window : Handle)
  | SDL_Quit
  deriving DecidableEq

/-! ## The host -/

/-- The file system: a partial map from paths to byte sequences, and which paths the
process may read. -/
structure FileSystem where
  contents : String → Option (List Byte)
  readable : String → Bool

/-- The host answers to the calls of one iteration of the loop of `mainLoop`. -/
structure Frame where
  /-- The pending event queue, in the order `SDL_PollEvent` hands it out. -/
  events : List SDL_EventType
  /-- Answer of `SDL_AcquireGPUCommandBuffer`. -/
  commandBuffer : Handle
  /-- Answer of `SDL_WaitAndAcquireGPUSwapchainTexture`. -/
  acquireOk : Bool
  /-- The texture stored through the out parameter of that call. -/
  swapchainTexture : Handle
  /-- Answer of `SDL_BeginGPURenderPass`. -/
  renderPass : Handle
  /-- Answer of `SDL_SubmitGPUCommandBuffer`. -/
  submitOk : Bool

/-- The host: the build flag `NDEBUG`, the file system, and the answer to each SDL call. -/
structure Host where
  NDEBUG : Bool
  fs : FileSystem
  init : Bool
  window : Handle
  device : Handle
  claim : Bool
  shader : SDL_GPUShaderStage → Handle
  swapchainFormat : Nat
  pipeline : Handle
  /-- What `SDL_GetError` returns when it is the call number `n` of the run. -/
  getError : Nat → String
  frames : List Frame

/-! ## Runs -/

/-- How a piece of the program ends. -/
inductive Outcome (α : Type) where
  /-- It returned. -/
  | ok (a : α)
  /-- It raised a `std::runtime_error` with this message. -/
  | throw (what : String)
  /-- The supplied frames are used up and the loop has not ended. -/
  | running
  deriving DecidableEq

/-- A piece of the program: from the trace so far to its outcome and the trace after. -/
def M (α : Type) : Type := List Call → Outcome α × List Call

/-- Sequencing: a raised error, or a loop that is still running, skips what follows. -/
def M.bind {α β : Type} (x : M α) (f : α → M β) : M β := fun tr =>
  match x tr with
  | (.ok a, tr') => f a tr'
  | (.throw e, tr') => (.throw e, tr')
  | (.running, tr') => (.running, tr')

/-- Returning a value makes no call. -/
def M.pure {α : Type} (a : α) : M α := fun tr => (.ok a, tr)

instance : Monad M where
  pure := M.pure
  bind := M.bind

/-- Raising `std::runtime_error(what)`. -/
def raise {α : Type} (what : String) : M α := fun tr => (.throw what, tr)

/-- The loop has not ended within the supplied frames. -/
def stillRunning {α : Type} : M α := fun tr => (.running, tr)

/-- Recording one call. -/
def call (c : Call) : M Unit := fun tr => (.ok (), tr ++ [c])

/-! ## The SDL calls and the file open, answered by the host -/

def SDL_Init (h : Host) (flags : List SDL_InitFlag) : M Bool := do
  call (.SDL_Init flags h.init)
  return h.init

def SDL_CreateWindow (h : Host) (title : String) (w ht : Nat) (flags : List SDL_WindowFlag) :
    M Handle := do
  call (.SDL_CreateWindow title w ht flags h.window)
  return h.window

def SDL_CreateGPUDevice (h : Host) (format : SDL_GPUShaderFormat) (debug_mode : Bool)
    (name : Option String) : M Handle := do
  call (.SDL_CreateGPUDevice format debug_mode name h.device)
  return h.device

def SDL_ClaimWindowForGPUDevice (h : Host) (device window : Handle) : M Bool := do
  call (.SDL_ClaimWindowForGPUDevice device window h.claim)
  return h.claim

def SDL_CreateGPUShader (h : Host) (device : Handle) (createinfo : SDL_GPUShaderCreateInfo) :
    M Handle := do
  call (.SDL_CreateGPUShader device createinfo (h.shader createinfo.stage))
  return h.shader createinfo.stage

def SDL_GetGPUSwapchainTextureFormat (h : Host) (device window : Handle) : M Nat := do
  call (.SDL_GetGPUSwapchainTextureFormat device window h.swapchainFormat)
  return h.swapchainFormat

def SDL_CreateGPUGraphicsPipeline (h : Host) (device : Handle)
    (createinfo : SDL_GPUGraphicsPipelineCreateInfo) : M Handle := do
  call (.SDL_CreateGPUGraphicsPipeline device createinfo h.pipeline)
  return h.pipeline

def SDL_ReleaseGPUShader (device shader : Handle) : M Unit :=
  call (.SDL_ReleaseGPUShader device shader)

/-- The call `SDL_GetError()`: the host answers by the number of calls made before it. -/
def SDL_GetError (h : Host) : M String := fun tr =>
  (.ok (h.getError tr.length), tr ++ [.SDL_GetError (h.getError tr.length)])

def SDL_AcquireGPUCommandBuffer (f : Frame) (device : Handle) : M Handle := do
  call (.SDL_AcquireGPUCommandBuffer device f.commandBuffer)
  return f.commandBuffer

/-- Returns the status and the texture stored through the out parameter. -/
def SDL_WaitAndAcquireGPUSwapchainTexture (f : Frame) (command_buffer window : Handle) :
    M (Bool × Handle) := do
  call (.SDL_WaitAndAcquireGPUSwapchainTexture command_buffer window f.acquireOk
    f.swapchainTexture)
  return (f.acquireOk, f.swapchainTexture)

def SDL_BeginGPURenderPass (f : Frame) (command_buffer : Handle)
    (color_target_info : SDL_GPUColorTargetInfo) (num_color_targets : Nat) : M Handle := do
  call (.SDL_BeginGPURenderPass command_buffer color_target_info num_color_targets f.renderPass)
  return f.renderPass

def SDL_BindGPUGraphicsPipeline (render_pass pipeline : Handle) : M Unit :=
  call (.SDL_BindGPUGraphicsPipeline render_pass pipeline)

def SDL_DrawGPUPrimitives (render_pass : Handle)
    (num_vertices num_instances first_vertex first_instance : Nat) : M Unit :=
  call (.SDL_DrawGPUPrimitives render_pass num_vertices num_instances first_vertex first_instance)

def SDL_EndGPURenderPass (render_pass : Handle) : M Unit :=
  call (.SDL_EndGPURenderPass render_pass)

def SDL_SubmitGPUCommandBuffer (f : Frame) (command_buffer : Handle) : M Bool := do
  call (.SDL_SubmitGPUCommandBuffer command_buffer f.submitOk)
  return f.submitOk

def SDL_DestroyWindow (window : Handle) : M Unit :=
  call (.SDL_DestroyWindow window)

def SDL_Quit : M Unit :=
  call .SDL_Quit

/-- The file a `std::ifstream` constructor gets: the bytes of the file when it exists and
is readable, nothing when the stream is not open. -/
def FileSystem.openForReading (fs : FileSystem) (path : String) : Option (List Byte) :=
  if fs.readable path then fs.contents path else none

/-- The constructor `std::ifstream file(path, std::ios::ate | std::ios::binary)`. -/
def ifstream (fs : FileSystem) (path : String) : M (Option (List Byte)) := do
  call (.ifstream_open path (fs.openForReading path).isSome)
  return fs.openForReading path

/-- The call `file.read(buffer.data(), n)` at position `pos`: the bytes of the file from
`pos` on overwrite the start of the buffer, up to `n` of them. -/
def ifstream_read (file : List Byte) (pos : Nat) (buffer : List Byte) (n : Nat) : List Byte :=
  let got := (file.drop pos).take n
  got ++ buffer.drop got.length

/-! ## HelloGraphicsApplication -/

/-- The fields of the class. -/
structure HelloGraphicsApplication where
  m_window : Handle
  m_device : Handle
  m_pipeline : Handle
  m_quitRequested : Bool
  deriving DecidableEq

namespace HelloGraphicsApplication

/-- The constant `m_GPUDebugEnable`: false when `NDEBUG` is defined. -/
def m_GPUDebugEnable (h : Host) : Bool := !h.NDEBUG

def isQuitRequested (app : HelloGraphicsApplication) : Bool :=
  app.m_quitRequested

def initSDL (h : Host) : M Unit := do
  if !(← SDL_Init h [.SDL_INIT_VIDEO, .SDL_INIT_EVENTS]) then
    raise ("Could not initialize SDL. SDL error: " ++ (← SDL_GetError h))

def createWindow (h : Host) (app : HelloGraphicsApplication) : M HelloGraphicsApplication := do
  let app := { app with
    m_window := ← SDL_CreateWindow h "Hello, Graphics Application" 1024 576
      [.SDL_WINDOW_RESIZABLE] }
  if app.m_window = 0 then
    raise ("Could not create window. SDL error: " ++ (← SDL_GetError h))
  return app

def createGPUDevice (h : Host) (app : HelloGraphicsApplication) : M HelloGraphicsApplication := do
  let app := { app with
    m_device := ← SDL_CreateGPUDevice h .SDL_GPU_SHADERFORMAT_SPIRV (m_GPUDebugEnable h) none }
  if app.m_device = 0 then
    raise ("Could not create GPU device. SDL error: " ++ (← SDL_GetError h))
  return app

def claimWindowForGPUDevice (h : Host) (app : HelloGraphicsApplication) : M Unit := do
  if !(← SDL_ClaimWindowForGPUDevice h app.m_device app.m_window) then
    raise ("Could not claim window for GPU device. SDL error: " ++ (← SDL_GetError h))

def readFile (fs : FileSystem) (fullFilePath : String) : M (List Byte) := do
  match ← ifstream fs fullFilePath with
  | none => raise ("Could not open file " ++ fullFilePath ++ " for reading.")
  | some file =>
    -- opened with `ate`: `tellg()` is the size of the file
    let fileSize := file.length
    let buffer : List Byte := List.replicate fileSize 0
    -- `seekg(0)` and `read(buffer.data(), fileSize)`
    let buffer := ifstream_read file 0 buffer fileSize
    return buffer

def createShader (h : Host) (app : HelloGraphicsApplication) (path : String)
    (stage : SDL_GPUShaderStage) : M Handle := do
  let shaderCode ← readFile h.fs path
  let shaderCreateInfo : SDL_GPUShaderCreateInfo := {
    code_size := shaderCode.length
    code := shaderCode
    entrypoint := "main"
    format := .SDL_GPU_SHADERFORMAT_SPIRV
    stage := stage }
  let shader ← SDL_CreateGPUShader h app.m_device shaderCreateInfo
  if shader = 0 then
    raise ("Could not create GPU shader from file " ++ path ++ ". SDL error: " ++
      (← SDL_GetError h))
  return shader

def createGraphicsPipeline (h : Host) (app : HelloGraphicsApplication) :
    M HelloGraphicsApplication := do
  let vertexShader ← createShader h app "../shaders/bin/triangle.vert.spv"
    .SDL_GPU_SHADERSTAGE_VERTEX
  let fragmentShader ← createShader h app "../shaders/bin/triangle.frag.spv"
    .SDL_GPU_SHADERSTAGE_FRAGMENT
  let colorTargetFormat ← SDL_GetGPUSwapchainTextureFormat h app.m_device app.m_window
  let pipelineCreateInfo : SDL_GPUGraphicsPipelineCreateInfo := {
    vertex_shader := vertexShader
    fragment_shader := fragmentShader
    primitive_type := .SDL_GPU_PRIMITIVETYPE_TRIANGLELIST
    color_target_format := colorTargetFormat
    num_color_targets := 1 }
  let app := { app with
    m_pipeline := ← SDL_CreateGPUGraphicsPipeline h app.m_device pipelineCreateInfo }
  if app.m_pipeline = 0 then
    raise ("Could not create GPU graphics pipeline. SDL error: " ++ (← SDL_GetError h))
  SDL_ReleaseGPUShader app.m_device vertexShader
  SDL_ReleaseGPUShader app.m_device fragmentShader
  return app

/-- The loop `while (SDL_PollEvent(&event))` over the pending queue. -/
def pollEvents (app : HelloGraphicsApplication) :
    List SDL_EventType → M HelloGraphicsApplication
  | [] => do
    call (.SDL_PollEvent none)
    return app
  | event :: pending => do
    call (.SDL_PollEvent (some event))
    match event with
    | .SDL_EVENT_QUIT | .SDL_EVENT_WINDOW_CLOSE_REQUESTED =>
      pollEvents { app with m_quitRequested := true } pending
    | _ => pollEvents app pending

/-- The body of the `while` loop of `mainLoop`, for one frame of host answers. -/
def mainLoopBody (h : Host) (f : Frame) (app : HelloGraphicsApplication) :
    M HelloGraphicsApplication := do
  let app ← pollEvents app f.events
  let commandBuffer ← SDL_AcquireGPUCommandBuffer f app.m_device
  let (acquired, swapchainTexture) ←
    SDL_WaitAndAcquireGPUSwapchainTexture f commandBuffer app.m_window
  if !acquired then
    raise ("Could not acquire GPU swapchain texture. SDL error: " ++ (← SDL_GetError h))
  if swapchainTexture ≠ 0 then
    let colorTargetInfo : SDL_GPUColorTargetInfo := {
      texture := swapchainTexture
      clear_color := (1, 2, 3, 10)
      load_op := .SDL_GPU_LOADOP_CLEAR
      store_op := .SDL_GPU_STOREOP_STORE }
    let renderPass ← SDL_BeginGPURenderPass f commandBuffer colorTargetInfo 1
    if renderPass = 0 then
      raise ("Could not begin render pass. SDL error: " ++ (← SDL_GetError h))
    SDL_BindGPUGraphicsPipeline renderPass app.m_pipeline
    SDL_DrawGPUPrimitives renderPass 3 1 0 0
    SDL_EndGPURenderPass renderPass
  if !(← SDL_SubmitGPUCommandBuffer f commandBuffer) then
    raise ("Could not submit GPU command buffer. SDL error: " ++ (← SDL_GetError h))
  return app

/-- The loop `while (!isQuitRequested())`, one frame of host answers per iteration. -/
def mainLoop (h : Host) : List Frame → HelloGraphicsApplication → M HelloGraphicsApplication
  | [], app =>
    if app.isQuitRequested then return app else stillRunning
  | f :: frames, app =>
    if app.isQuitRequested then return app
    else do
      let app ← mainLoopBody h f app
      mainLoop h frames app

/-- The object before the constructor body runs: the pointer fields are not initialised
(kept as `0`; each is assigned before it is read) and `m_quitRequested = false`. -/
def fresh : HelloGraphicsApplication :=
  { m_window := 0, m_device := 0, m_pipeline := 0, m_quitRequested := false }

/-- The five setup calls of the constructor. -/
def setup (h : Host) : M HelloGraphicsApplication := do
  let app := fresh
  initSDL h
  let app ← createWindow h app
  let app ← createGPUDevice h app
  claimWindowForGPUDevice h app
  let app ← createGraphicsPipeline h app
  return app

/-- The constructor `HelloGraphicsApplication::HelloGraphicsApplication()`. -/
def ctor (h : Host) : M HelloGraphicsApplication := do
  let app ← setup h
  mainLoop h h.frames app

/-- The destructor `HelloGraphicsApplication::~HelloGraphicsApplication()`. -/
def dtor (app : HelloGraphicsApplication) : M Unit := do
  SDL_DestroyWindow app.m_window
  SDL_Quit

end HelloGraphicsApplication

/-! ## main -/

/-- What the process did: its exit code (`none` while the loop is still running), what
it wrote to standard error, and the calls it made. -/
structure Process where
  exitCode : Option Nat
  stderr : String
  trace : List Call
  deriving DecidableEq

def EXIT_SUCCESS : Nat := 0

def EXIT_FAILURE : Nat := 1

/-- The function `main`: the object is constructed inside the `try` block and destroyed
when the block is left; the destructor does not run for an object whose constructor
raised. -/
def main (h : Host) : Process :=
  match HelloGraphicsApplication.ctor h [] with
  | (.ok app, tr) =>
    { exitCode := some EXIT_SUCCESS, stderr := "", trace := (HelloGraphicsApplication.dtor app tr).2 }
  | (.throw what, tr) =>
    { exitCode := some EXIT_FAILURE, stderr := what ++ "\n", trace := tr }
  | (.running, tr) =>
    { exitCode := none, stderr := "", trace := tr }

/-! ## Example hosts -/

def vertPath : String := "../shaders/bin/triangle.vert.spv"

def fragPath : String := "../shaders/bin/triangle.frag.spv"

/-- A file system holding the two shader files. -/
def fsBoth : FileSystem :=
  { contents := fun p =>
      if p = vertPath then some [3, 2, 35, 7]
      else if p = fragPath then some [3, 2, 35, 7, 0]
      else none
    readable := fun _ => true }

/-- A frame in which every call succeeds and the user closes the window. -/
def closingFrame : Frame :=
  { events := [.other 1024, .SDL_EVENT_WINDOW_CLOSE_REQUESTED]
    commandBuffer := 40, acquireOk := true, swapchainTexture := 50, renderPass := 60
    submitOk := true }

/-- A frame in which every call succeeds and no event asks to quit. -/
def quietFrame : Frame :=
  { events := [.other 1024]
    commandBuffer := 41, acquireOk := true, swapchainTexture := 51, renderPass := 61
    submitOk := true }

/-- A host on which every call succeeds; the window is closed in the second frame. -/
def goodHost : Host :=
  { NDEBUG := true, fs := fsBoth, init := true, window := 10, device := 20, claim := true
    shader := fun s => match s with
      | .SDL_GPU_SHADERSTAGE_VERTEX => 30
      | .SDL_GPU_SHADERSTAGE_FRAGMENT => 31
    swapchainFormat := 5, pipeline := 70
    getError := fun _ => "boom"
    frames := [quietFrame, closingFrame, quietFrame] }

end BlueBall


namespace BlueBall

open HelloGraphicsApplication

/-! ## Vocabulary of the properties -/

/-- An event whose type is one of the two that `pollEvents` acts on. -/
def SDL_EventType.asksQuit (e : SDL_EventType) : Bool :=
  decide (e = .SDL_EVENT_QUIT ∨ e = .SDL_EVENT_WINDOW_CLOSE_REQUESTED)

/-- Some pending event of the frame asks to quit. -/
def Frame.seesQuit (f : Frame) : Bool :=
  f.events.any SDL_EventType.asksQuit

/-- No checked call of the frame fails: the swapchain texture is acquired, the render
pass (begun only for a non-null texture) is non-null, and the submit succeeds. -/
def Frame.rendersOk (f : Frame) : Prop :=
  f.acquireOk = true ∧ (f.swapchainTexture ≠ 0 → f.renderPass ≠ 0) ∧ f.submitOk = true

instance (f : Frame) : Decidable f.rendersOk := by
  unfold Frame.rendersOk; infer_instance

/-- The calls of `pollEvents` on a pending queue: one per event, and the last one that
finds the queue empty. -/
def pollCalls (events : List SDL_EventType) : List Call :=
  events.map (fun e => Call.SDL_PollEvent (some e)) ++ [Call.SDL_PollEvent none]

/-- The render pass of a frame: nothing for a null texture. -/
def passCalls (app : HelloGraphicsApplication) (f : Frame) : List Call :=
  if f.swapchainTexture ≠ 0 then
    [ .SDL_BeginGPURenderPass f.commandBuffer
        { texture := f.swapchainTexture, clear_color := (1, 2, 3, 10)
          load_op := .SDL_GPU_LOADOP_CLEAR, store_op := .SDL_GPU_STOREOP_STORE } 1 f.renderPass,
      .SDL_BindGPUGraphicsPipeline f.renderPass app.m_pipeline,
      .SDL_DrawGPUPrimitives f.renderPass 3 1 0 0,
      .SDL_EndGPURenderPass f.renderPass ]
  else []

/-- The calls of one iteration of the loop after its poll, when none fails. -/
def renderCalls (app : HelloGraphicsApplication) (f : Frame) : List Call :=
  [ .SDL_AcquireGPUCommandBuffer app.m_device f.commandBuffer,
    .SDL_WaitAndAcquireGPUSwapchainTexture f.commandBuffer app.m_window true f.swapchainTexture ]
  ++ passCalls app f ++ [ .SDL_SubmitGPUCommandBuffer f.commandBuffer true ]

/-- The calls of one iteration of the loop in which no call fails. -/
def frameCalls (app : HelloGraphicsApplication) (f : Frame) : List Call :=
  pollCalls f.events ++ renderCalls app f

/-- The call is one of the checked calls of the program and its answer is the failure
value (`false` or `NULL`). -/
def Call.failed : Call → Bool
  | .SDL_Init _ r => !r
  | .SDL_CreateWindow _ _ _ _ r => decide (r = 0)
  | .SDL_CreateGPUDevice _ _ _ r => decide (r = 0)
  | .SDL_ClaimWindowForGPUDevice _ _ r => !r
  | .SDL_CreateGPUShader _ _ r => decide (r = 0)
  | .SDL_CreateGPUGraphicsPipeline _ _ r => decide (r = 0)
  | .SDL_WaitAndAcquireGPUSwapchainTexture _ _ r _ => !r
  | .SDL_BeginGPURenderPass _ _ _ r => decide (r = 0)
  | .SDL_SubmitGPUCommandBuffer _ r => !r
  | _ => false

/-- The call is one the loop of `mainLoop` makes. -/
def Call.isLoopCall : Call → Bool
  | .SDL_PollEvent _ => true
  | .SDL_AcquireGPUCommandBuffer _ _ => true
  | .SDL_WaitAndAcquireGPUSwapchainTexture _ _ _ _ => true
  | .SDL_BeginGPURenderPass _ _ _ _ => true
  | .SDL_BindGPUGraphicsPipeline _ _ => true
  | .SDL_DrawGPUPrimitives _ _ _ _ _ => true
  | .SDL_EndGPURenderPass _ => true
  | .SDL_SubmitGPUCommandBuffer _ _ => true
  | _ => false

/-- No call of the trace is a failed checked call. -/
def NoFail (tr : List Call) : Prop := ∀ c ∈ tr, c.failed = false

/-- The text `s` contains the text `p`. -/
def names (s p : String) : Prop := p.data <:+: s.data

instance (s p : String) : Decidable (names s p) := by
  unfold names; infer_instance

/-- Every setup call succeeds on this host. -/
def Host.setupSucceeds (h : Host) : Prop :=
  h.init = true ∧ h.window ≠ 0 ∧ h.device ≠ 0 ∧ h.claim = true ∧
  (h.fs.openForReading vertPath).isSome = true ∧ h.shader .SDL_GPU_SHADERSTAGE_VERTEX ≠ 0 ∧
  (h.fs.openForReading fragPath).isSome = true ∧ h.shader .SDL_GPU_SHADERSTAGE_FRAGMENT ≠ 0 ∧
  h.pipeline ≠ 0

instance (h : Host) : Decidable h.setupSucceeds := by
  unfold Host.setupSucceeds; infer_instance

/-- The loop ends by a quit request: some frame sees a quit event, no earlier frame
does, and no checked call fails up to and in that frame. -/
def endsByQuit (frames : List Frame) : Prop :=
  ∃ pre f post, frames = pre ++ f :: post ∧
    (∀ g ∈ pre, g.rendersOk ∧ g.seesQuit = false) ∧ f.rendersOk ∧ f.seesQuit = true

/-- The object when the setup calls have all succeeded. -/
def readyApp (h : Host) : HelloGraphicsApplication :=
  { m_window := h.window, m_device := h.device, m_pipeline := h.pipeline
    m_quitRequested := false }

/-- The calls of a setup in which no call fails, for the contents of the two files. -/
def setupCalls (h : Host) (vertCode fragCode : List Byte) : List Call :=
  [ .SDL_Init [.SDL_INIT_VIDEO, .SDL_INIT_EVENTS] true,
    .SDL_CreateWindow "Hello, Graphics Application" 1024 576 [.SDL_WINDOW_RESIZABLE] h.window,
    .SDL_CreateGPUDevice .SDL_GPU_SHADERFORMAT_SPIRV (!h.NDEBUG) none h.device,
    .SDL_ClaimWindowForGPUDevice h.device h.window true,
    .ifstream_open "../shaders/bin/triangle.vert.spv" true,
    .SDL_CreateGPUShader h.device
      { code_size := vertCode.length, code := vertCode, entrypoint := "main"
        format := .SDL_GPU_SHADERFORMAT_SPIRV, stage := .SDL_GPU_SHADERSTAGE_VERTEX }
      (h.shader .SDL_GPU_SHADERSTAGE_VERTEX),
    .ifstream_open "../shaders/bin/triangle.frag.spv" true,
    .SDL_CreateGPUShader h.device
      { code_size := fragCode.length, code := fragCode, entrypoint := "main"
        format := .SDL_GPU_SHADERFORMAT_SPIRV, stage := .SDL_GPU_SHADERSTAGE_FRAGMENT }
      (h.shader .SDL_GPU_SHADERSTAGE_FRAGMENT),
    .SDL_GetGPUSwapchainTextureFormat h.device h.window h.swapchainFormat,
    .SDL_CreateGPUGraphicsPipeline h.device
      { vertex_shader := h.shader .SDL_GPU_SHADERSTAGE_VERTEX
        fragment_shader := h.shader .SDL_GPU_SHADERSTAGE_FRAGMENT
        primitive_type := .SDL_GPU_PRIMITIVETYPE_TRIANGLELIST
        color_target_format := h.swapchainFormat, num_color_targets := 1 }
      h.pipeline,
    .SDL_ReleaseGPUShader h.device (h.shader .SDL_GPU_SHADERSTAGE_VERTEX),
    .SDL_ReleaseGPUShader h.device (h.shader .SDL_GPU_SHADERSTAGE_FRAGMENT) ]

/-- The calls of the destructor. -/
def teardownCalls (h : Host) : List Call :=
  [ .SDL_DestroyWindow h.window, .SDL_Quit ]

/-- The outcome is a raised error. -/
def Outcome.isThrow {α : Type} : Outcome α → Bool
  | .throw _ => true
  | _ => false

/-- The supplied frames are used up with the loop still running: no frame sees a quit
event and no checked call fails. -/
def staysOpen (frames : List Frame) : Prop :=
  ∀ g ∈ frames, g.rendersOk ∧ g.seesQuit = false

/-- A checked call fails in the loop: in some frame, before which no frame sees a quit
event or has a failing call. -/
def failsInLoop (frames : List Frame) : Prop :=
  ∃ pre f post, frames = pre ++ f :: post ∧
    (∀ g ∈ pre, g.rendersOk ∧ g.seesQuit = false) ∧ ¬ f.rendersOk

/-- The run was aborted at a failed checked call: the trace is a part without failed
calls, then the failed call, then the one call `SDL_GetError`, and the raised message ends
with the string that call returned. -/
def Aborted {α : Type} (h : Host) (r : Outcome α × List Call) : Prop :=
  ∃ good c pfx, NoFail good ∧ c.failed = true ∧
    r.2 = good ++ [c, .SDL_GetError (h.getError (good.length + 1))] ∧
    r.1 = .throw (pfx ++ h.getError (good.length + 1))

/-- From a trace without failed calls, the piece of program either adds no failed call or
is aborted at the first one. -/
def Safe {α : Type} (h : Host) (x : M α) : Prop :=
  ∀ tr, NoFail tr → NoFail (x tr).2 ∨ Aborted h (x tr)

/-- A frame with no pending event and a null swapchain texture, whose submit fails. -/
def submitFailsFrame : Frame :=
  { events := [], commandBuffer := 40, acquireOk := true, swapchainTexture := 0
    renderPass := 0, submitOk := false }

/-- A host on which setup succeeds and the submit of the first frame fails. -/
def submitFailsHost : Host :=
  { goodHost with frames := [submitFailsFrame, closingFrame] }

/-- A file system holding only the vertex shader file. -/
def fsVertOnly : FileSystem :=
  { contents := fun p => if p = vertPath then some [3, 2, 35, 7] else none
    readable := fun _ => true }

/-- A host on which the fragment shader file is missing. -/
def fragMissingHost : Host :=
  { goodHost with fs := fsVertOnly }

/-- A host on which the fragment shader file is missing and SDL rejects every shader. -/
def vertRejectedHost : Host :=
  { goodHost with fs := fsVertOnly, shader := fun _ => 0 }

/-- A host on which every call succeeds and the window is closed in the first frame. -/
def closeAtOnceHost : Host :=
  { goodHost with frames := [closingFrame] }

/-- A frame in which `SDL_AcquireGPUCommandBuffer` answers `NULL`, every other call
succeeds, and the user closes the window. -/
def nullCommandBufferFrame : Frame :=
  { closingFrame with commandBuffer := 0 }

/-- A host on which only `SDL_AcquireGPUCommandBuffer` fails. -/
def nullCommandBufferHost : Host :=
  { goodHost with frames := [nullCommandBufferFrame] }

instance (frames : List Frame) : Decidable (staysOpen frames) := by
  unfold staysOpen; infer_instance

/-- A frame with no pending event in which every call succeeds and the acquired swapchain
texture is `NULL`. -/
def minimizedFrame : Frame :=
  { events := [], commandBuffer := 40, acquireOk := true, swapchainTexture := 0
    renderPass := 0, submitOk := true }

/-- Every window, device or pipeline argument of the call is the value of the field of
`app` of that kind. -/
def Call.usesFieldsOf (app : HelloGraphicsApplication) : Call → Prop
  | .SDL_ClaimWindowForGPUDevice device window _ =>
    device = app.m_device ∧ window = app.m_window
  | .SDL_CreateGPUShader device _ _ => device = app.m_device
  | .SDL_GetGPUSwapchainTextureFormat device window _ =>
    device = app.m_device ∧ window = app.m_window
  | .SDL_CreateGPUGraphicsPipeline device _ _ => device = app.m_device
  | .SDL_ReleaseGPUShader device _ => device = app.m_device
  | .SDL_AcquireGPUCommandBuffer device _ => device = app.m_device
  | .SDL_WaitAndAcquireGPUSwapchainTexture _ window _ _ => window = app.m_window
  | .SDL_BindGPUGraphicsPipeline _ pipeline => pipeline = app.m_pipeline
  | .SDL_DestroyWindow window => window = app.m_window
  | _ => True

/-- The three handles of `app'` are those of `app`. -/
def sameHandles (app app' : HelloGraphicsApplication) : Prop :=
  app'.m_window = app.m_window ∧ app'.m_device = app.m_device ∧
    app'.m_pipeline = app.m_pipeline

/-- The piece of program only adds calls that use the handles of `app`, and the object it
returns has the same handles. -/
def Keeps (app : HelloGraphicsApplication) (x : M HelloGraphicsApplication) : Prop :=
  ∀ tr, ∃ calls, (x tr).2 = tr ++ calls ∧ (∀ c ∈ calls, c.usesFieldsOf app) ∧
    ∀ app', (x tr).1 = .ok app' → sameHandles app app'

/-! ## Running the monad -/

@[simp] theorem run_pure {α : Type} (a : α) (tr : List Call) :
    (pure a : M α) tr = (.ok a, tr) := rfl

theorem run_bind {α β : Type} (x : M α) (f : α → M β) (tr : List Call) :
    (x >>= f) tr = M.bind x f tr := rfl

theorem run_bind_ok {α β : Type} (x : M α) (f : α → M β) (tr tr' : List Call) (a : α)
    (hx : x tr = (.ok a, tr')) : (x >>= f) tr = f a tr' := by
  simp [run_bind, M.bind, hx]

theorem run_bind_throw {α β : Type} (x : M α) (f : α → M β) (tr tr' : List Call) (e : String)
    (hx : x tr = (.throw e, tr')) : (x >>= f) tr = (.throw e, tr') := by
  simp [run_bind, M.bind, hx]

theorem run_bind_running {α β : Type} (x : M α) (f : α → M β) (tr tr' : List Call)
    (hx : x tr = (.running, tr')) : (x >>= f) tr = (.running, tr') := by
  simp [run_bind, M.bind, hx]

theorem pollEvents_run (events : List SDL_EventType) (app : HelloGraphicsApplication)
    (tr : List Call) :
    pollEvents app events tr =
      (.ok { app with m_quitRequested := app.m_quitRequested || events.any SDL_EventType.asksQuit },
        tr ++ pollCalls events) := by
  induction events generalizing app tr with
  | nil => simp [pollEvents, pollCalls, run_bind, M.bind, call]
  | cons e es ih =>
    cases e <;>
      simp [pollEvents, pollCalls, run_bind, M.bind, call, ih, SDL_EventType.asksQuit]

theorem mainLoopBody_ok (h : Host) (f : Frame) (app : HelloGraphicsApplication)
    (tr : List Call) (hf : f.rendersOk) :
    mainLoopBody h f app tr =
      (.ok { app with m_quitRequested := app.m_quitRequested || f.seesQuit },
        tr ++ frameCalls app f) := by
  obtain ⟨h1, h2, h3⟩ := hf
  by_cases ht : f.swapchainTexture = 0
  · simp [mainLoopBody, run_bind, M.bind, pollEvents_run, SDL_AcquireGPUCommandBuffer, call,
      SDL_WaitAndAcquireGPUSwapchainTexture, SDL_SubmitGPUCommandBuffer, h1, h3, ht,
      frameCalls, renderCalls, passCalls, Frame.seesQuit]
  · have h2' := h2 ht
    simp [mainLoopBody, run_bind, M.bind, pollEvents_run, SDL_AcquireGPUCommandBuffer, call,
      SDL_WaitAndAcquireGPUSwapchainTexture, SDL_SubmitGPUCommandBuffer, h1, h3, ht, h2',
      frameCalls, renderCalls, passCalls, Frame.seesQuit, SDL_BeginGPURenderPass,
      SDL_BindGPUGraphicsPipeline, SDL_DrawGPUPrimitives, SDL_EndGPURenderPass]


theorem ifstream_read_all (file : List Byte) :
    ifstream_read file 0 (List.replicate file.length 0) file.length = file := by
  simp [ifstream_read]

theorem readFile_run (fs : FileSystem) (path : String) (tr : List Call) :
    readFile fs path tr =
      match fs.openForReading path with
      | none => (.throw ("Could not open file " ++ path ++ " for reading."),
          tr ++ [.ifstream_open path false])
      | some file => (.ok file, tr ++ [.ifstream_open path true]) := by
  cases hopen : fs.openForReading path <;>
    simp [readFile, ifstream, run_bind, M.bind, call, raise, hopen, ifstream_read_all]

theorem createShader_run (h : Host) (app : HelloGraphicsApplication) (path : String)
    (stage : SDL_GPUShaderStage) (tr : List Call) :
    createShader h app path stage tr =
      match h.fs.openForReading path with
      | none => (.throw ("Could not open file " ++ path ++ " for reading."),
          tr ++ [.ifstream_open path false])
      | some file =>
        if h.shader stage = 0 then
          (.throw ("Could not create GPU shader from file " ++ path ++ ". SDL error: " ++
              h.getError (tr.length + 2)),
            tr ++ [.ifstream_open path true,
              .SDL_CreateGPUShader app.m_device
                { code_size := file.length, code := file, entrypoint := "main"
                  format := .SDL_GPU_SHADERFORMAT_SPIRV, stage := stage } 0,
              .SDL_GetError (h.getError (tr.length + 2))])
        else
          (.ok (h.shader stage),
            tr ++ [.ifstream_open path true,
              .SDL_CreateGPUShader app.m_device
                { code_size := file.length, code := file, entrypoint := "main"
                  format := .SDL_GPU_SHADERFORMAT_SPIRV, stage := stage } (h.shader stage)]) := by
  cases hopen : h.fs.openForReading path with
  | none => simp [createShader, run_bind, M.bind, readFile_run, hopen]
  | some file =>
    by_cases hs : h.shader stage = 0
    · simp [createShader, run_bind, M.bind, readFile_run, hopen, hs, SDL_CreateGPUShader,
        call, raise, SDL_GetError]
    · simp [createShader, run_bind, M.bind, readFile_run, hopen, hs, SDL_CreateGPUShader,
        call, raise, SDL_GetError]

theorem initSDL_run (h : Host) (tr : List Call) :
    initSDL h tr =
      if h.init = true then
        (.ok (), tr ++ [.SDL_Init [.SDL_INIT_VIDEO, .SDL_INIT_EVENTS] true])
      else
        (.throw ("Could not initialize SDL. SDL error: " ++ h.getError (tr.length + 1)),
          tr ++ [.SDL_Init [.SDL_INIT_VIDEO, .SDL_INIT_EVENTS] false,
            .SDL_GetError (h.getError (tr.length + 1))]) := by
  cases hi : h.init <;>
    simp [initSDL, SDL_Init, run_bind, M.bind, call, raise, SDL_GetError, hi]

theorem createWindow_run (h : Host) (app : HelloGraphicsApplication) (tr : List Call) :
    createWindow h app tr =
      if h.window = 0 then
        (.throw ("Could not create window. SDL error: " ++ h.getError (tr.length + 1)),
          tr ++ [.SDL_CreateWindow "Hello, Graphics Application" 1024 576
              [.SDL_WINDOW_RESIZABLE] 0,
            .SDL_GetError (h.getError (tr.length + 1))])
      else
        (.ok { app with m_window := h.window },
          tr ++ [.SDL_CreateWindow "Hello, Graphics Application" 1024 576
              [.SDL_WINDOW_RESIZABLE] h.window]) := by
  by_cases hw : h.window = 0 <;>
    simp [createWindow, SDL_CreateWindow, run_bind, M.bind, call, raise, SDL_GetError, hw]

theorem createGPUDevice_run (h : Host) (app : HelloGraphicsApplication) (tr : List Call) :
    createGPUDevice h app tr =
      if h.device = 0 then
        (.throw ("Could not create GPU device. SDL error: " ++ h.getError (tr.length + 1)),
          tr ++ [.SDL_CreateGPUDevice .SDL_GPU_SHADERFORMAT_SPIRV (!h.NDEBUG) none 0,
            .SDL_GetError (h.getError (tr.length + 1))])
      else
        (.ok { app with m_device := h.device },
          tr ++ [.SDL_CreateGPUDevice .SDL_GPU_SHADERFORMAT_SPIRV (!h.NDEBUG) none
            h.device]) := by
  by_cases hd : h.device = 0 <;>
    simp [createGPUDevice, SDL_CreateGPUDevice, run_bind, M.bind, call, raise, SDL_GetError,
      m_GPUDebugEnable, hd]

theorem claimWindowForGPUDevice_run (h : Host) (app : HelloGraphicsApplication)
    (tr : List Call) :
    claimWindowForGPUDevice h app tr =
      if h.claim = true then
        (.ok (), tr ++ [.SDL_ClaimWindowForGPUDevice app.m_device app.m_window true])
      else
        (.throw ("Could not claim window for GPU device. SDL error: " ++
            h.getError (tr.length + 1)),
          tr ++ [.SDL_ClaimWindowForGPUDevice app.m_device app.m_window false,
            .SDL_GetError (h.getError (tr.length + 1))]) := by
  cases hc : h.claim <;>
    simp [claimWindowForGPUDevice, SDL_ClaimWindowForGPUDevice, run_bind, M.bind, call, raise,
      SDL_GetError, hc]

/-- The part of `createGraphicsPipeline` after the two shaders are created. -/
theorem createGraphicsPipeline_tail (h : Host) (app : HelloGraphicsApplication)
    (tr : List Call) (vfile ffile : List Byte)
    (hv : h.fs.openForReading "../shaders/bin/triangle.vert.spv" = some vfile)
    (hvs : h.shader .SDL_GPU_SHADERSTAGE_VERTEX ≠ 0)
    (hf : h.fs.openForReading "../shaders/bin/triangle.frag.spv" = some ffile)
    (hfs : h.shader .SDL_GPU_SHADERSTAGE_FRAGMENT ≠ 0) :
    createGraphicsPipeline h app tr =
      if h.pipeline = 0 then
        (.throw ("Could not create GPU graphics pipeline. SDL error: " ++
            h.getError (tr.length + 6)),
          tr ++ [ .ifstream_open "../shaders/bin/triangle.vert.spv" true,
            .SDL_CreateGPUShader app.m_device
              { code_size := vfile.length, code := vfile, entrypoint := "main"
                format := .SDL_GPU_SHADERFORMAT_SPIRV, stage := .SDL_GPU_SHADERSTAGE_VERTEX }
              (h.shader .SDL_GPU_SHADERSTAGE_VERTEX),
            .ifstream_open "../shaders/bin/triangle.frag.spv" true,
            .SDL_CreateGPUShader app.m_device
              { code_size := ffile.length, code := ffile, entrypoint := "main"
                format := .SDL_GPU_SHADERFORMAT_SPIRV, stage := .SDL_GPU_SHADERSTAGE_FRAGMENT }
              (h.shader .SDL_GPU_SHADERSTAGE_FRAGMENT),
            .SDL_GetGPUSwapchainTextureFormat app.m_device app.m_window h.swapchainFormat,
            .SDL_CreateGPUGraphicsPipeline app.m_device
              { vertex_shader := h.shader .SDL_GPU_SHADERSTAGE_VERTEX
                fragment_shader := h.shader .SDL_GPU_SHADERSTAGE_FRAGMENT
                primitive_type := .SDL_GPU_PRIMITIVETYPE_TRIANGLELIST
                color_target_format := h.swapchainFormat, num_color_targets := 1 } 0,
            .SDL_GetError (h.getError (tr.length + 6)) ])
      else
        (.ok { app with m_pipeline := h.pipeline },
          tr ++ [ .ifstream_open "../shaders/bin/triangle.vert.spv" true,
            .SDL_CreateGPUShader app.m_device
              { code_size := vfile.length, code := vfile, entrypoint := "main"
                format := .SDL_GPU_SHADERFORMAT_SPIRV, stage := .SDL_GPU_SHADERSTAGE_VERTEX }
              (h.shader .SDL_GPU_SHADERSTAGE_VERTEX),
            .ifstream_open "../shaders/bin/triangle.frag.spv" true,
            .SDL_CreateGPUShader app.m_device
              { code_size := ffile.length, code := ffile, entrypoint := "main"
                format := .SDL_GPU_SHADERFORMAT_SPIRV, stage := .SDL_GPU_SHADERSTAGE_FRAGMENT }
              (h.shader .SDL_GPU_SHADERSTAGE_FRAGMENT),
            .SDL_GetGPUSwapchainTextureFormat app.m_device app.m_window h.swapchainFormat,
            .SDL_CreateGPUGraphicsPipeline app.m_device
              { vertex_shader := h.shader .SDL_GPU_SHADERSTAGE_VERTEX
                fragment_shader := h.shader .SDL_GPU_SHADERSTAGE_FRAGMENT
                primitive_type := .SDL_GPU_PRIMITIVETYPE_TRIANGLELIST
                color_target_format := h.swapchainFormat, num_color_targets := 1 } h.pipeline,
            .SDL_ReleaseGPUShader app.m_device (h.shader .SDL_GPU_SHADERSTAGE_VERTEX),
            .SDL_ReleaseGPUShader app.m_device (h.shader .SDL_GPU_SHADERSTAGE_FRAGMENT) ]) := by
  by_cases hp : h.pipeline = 0 <;>
    simp [createGraphicsPipeline, run_bind, M.bind, createShader_run, hv, hvs, hf, hfs, hp,
      SDL_GetGPUSwapchainTextureFormat, SDL_CreateGPUGraphicsPipeline, SDL_ReleaseGPUShader,
      call, raise, SDL_GetError]

theorem setup_ok (h : Host) (hs : h.setupSucceeds) :
    ∃ vfile ffile, h.fs.openForReading vertPath = some vfile ∧
      h.fs.openForReading fragPath = some ffile ∧
      setup h [] = (.ok (readyApp h), setupCalls h vfile ffile) := by
  obtain ⟨h1, h2, h3, h4, h5, h6, h7, h8, h9⟩ := hs
  obtain ⟨vfile, hv⟩ := Option.isSome_iff_exists.mp h5
  obtain ⟨ffile, hf⟩ := Option.isSome_iff_exists.mp h7
  refine ⟨vfile, ffile, hv, hf, ?_⟩
  simp only [vertPath, fragPath] at hv hf
  simp [setup, run_bind, M.bind, initSDL_run, createWindow_run, createGPUDevice_run,
    claimWindowForGPUDevice_run, createGraphicsPipeline_tail h _ _ vfile ffile hv h6 hf h8,
    h1, h2, h3, h4, h9, fresh, readyApp, setupCalls]

theorem isThrow_iff {α : Type} (r : Outcome α × List Call) :
    r.1.isThrow = true ↔ ∃ what, r = (.throw what, r.2) := by
  obtain ⟨o, tr⟩ := r
  cases o <;> simp [Outcome.isThrow]

theorem setup_fail (h : Host) (hs : ¬ h.setupSucceeds) :
    (setup h []).1.isThrow = true ∧ ∀ c ∈ (setup h []).2, c.isLoopCall = false := by
  unfold Host.setupSucceeds at hs
  by_cases h1 : h.init = true
  swap
  · simp [setup, run_bind, M.bind, initSDL_run, h1, Outcome.isThrow, Call.isLoopCall]
  by_cases h2 : h.window = 0
  · simp [setup, run_bind, M.bind, initSDL_run, createWindow_run, h1, h2, Outcome.isThrow,
      Call.isLoopCall]
  by_cases h3 : h.device = 0
  · simp [setup, run_bind, M.bind, initSDL_run, createWindow_run, createGPUDevice_run, h1, h2,
      h3, Outcome.isThrow, Call.isLoopCall]
  by_cases h4 : h.claim = true
  swap
  · simp [setup, run_bind, M.bind, initSDL_run, createWindow_run, createGPUDevice_run,
      claimWindowForGPUDevice_run, h1, h2, h3, h4, Outcome.isThrow, Call.isLoopCall]
  cases h5 : h.fs.openForReading "../shaders/bin/triangle.vert.spv" with
  | none =>
    simp [setup, run_bind, M.bind, initSDL_run, createWindow_run, createGPUDevice_run,
      claimWindowForGPUDevice_run, createGraphicsPipeline, createShader_run, h1, h2, h3, h4, h5,
      Outcome.isThrow, Call.isLoopCall]
  | some vfile =>
    by_cases h6 : h.shader .SDL_GPU_SHADERSTAGE_VERTEX = 0
    · simp [setup, run_bind, M.bind, initSDL_run, createWindow_run, createGPUDevice_run,
        claimWindowForGPUDevice_run, createGraphicsPipeline, createShader_run, h1, h2, h3, h4,
        h5, h6, Outcome.isThrow, Call.isLoopCall]
    cases h7 : h.fs.openForReading "../shaders/bin/triangle.frag.spv" with
    | none =>
      simp [setup, run_bind, M.bind, initSDL_run, createWindow_run, createGPUDevice_run,
        claimWindowForGPUDevice_run, createGraphicsPipeline, createShader_run, h1, h2, h3, h4,
        h5, h6, h7, Outcome.isThrow, Call.isLoopCall]
    | some ffile =>
      by_cases h8 : h.shader .SDL_GPU_SHADERSTAGE_FRAGMENT = 0
      · simp [setup, run_bind, M.bind, initSDL_run, createWindow_run, createGPUDevice_run,
          claimWindowForGPUDevice_run, createGraphicsPipeline, createShader_run, h1, h2, h3, h4,
          h5, h6, h7, h8, Outcome.isThrow, Call.isLoopCall]
      by_cases h9 : h.pipeline = 0
      · simp [setup, run_bind, M.bind, initSDL_run, createWindow_run, createGPUDevice_run,
          claimWindowForGPUDevice_run, createGraphicsPipeline_tail h _ _ vfile ffile h5 h6 h7 h8,
          h1, h2, h3, h4, h9, Outcome.isThrow, Call.isLoopCall]
      · exact absurd ⟨h1, h2, h3, h4, by simp [vertPath, h5], h6, by simp [fragPath, h7], h8, h9⟩ hs

theorem mainLoopBody_fail (h : Host) (f : Frame) (app : HelloGraphicsApplication)
    (tr : List Call) (hf : ¬ f.rendersOk) :
    (mainLoopBody h f app tr).1.isThrow = true := by
  unfold Frame.rendersOk at hf
  by_cases h1 : f.acquireOk = true
  swap
  · simp [mainLoopBody, run_bind, M.bind, pollEvents_run, SDL_AcquireGPUCommandBuffer, call,
      SDL_WaitAndAcquireGPUSwapchainTexture, raise, SDL_GetError, h1, Outcome.isThrow]
  by_cases ht : f.swapchainTexture = 0
  · have h3 : f.submitOk = false := by
      cases hsub : f.submitOk
      · rfl
      · exact absurd ⟨h1, fun hne => absurd ht hne, hsub⟩ hf
    simp [mainLoopBody, run_bind, M.bind, pollEvents_run, SDL_AcquireGPUCommandBuffer, call,
      SDL_WaitAndAcquireGPUSwapchainTexture, SDL_SubmitGPUCommandBuffer, raise, SDL_GetError,
      h1, ht, h3, Outcome.isThrow]
  by_cases h2 : f.renderPass = 0
  · simp [mainLoopBody, run_bind, M.bind, pollEvents_run, SDL_AcquireGPUCommandBuffer, call,
      SDL_WaitAndAcquireGPUSwapchainTexture, SDL_BeginGPURenderPass, raise, SDL_GetError,
      h1, ht, h2, Outcome.isThrow]
  · have h3 : f.submitOk = false := by
      cases hsub : f.submitOk
      · rfl
      · exact absurd ⟨h1, fun _ => h2, hsub⟩ hf
    simp [mainLoopBody, run_bind, M.bind, pollEvents_run, SDL_AcquireGPUCommandBuffer, call,
      SDL_WaitAndAcquireGPUSwapchainTexture, SDL_BeginGPURenderPass,
      SDL_BindGPUGraphicsPipeline, SDL_DrawGPUPrimitives, SDL_EndGPURenderPass,
      SDL_SubmitGPUCommandBuffer, raise, SDL_GetError, h1, ht, h2, h3, Outcome.isThrow]

theorem mainLoop_quit_now (h : Host) (frames : List Frame) (app : HelloGraphicsApplication)
    (tr : List Call) (hq : app.m_quitRequested = true) :
    mainLoop h frames app tr = (.ok app, tr) := by
  cases frames <;> simp [mainLoop, isQuitRequested, hq]

theorem quiet_app (app : HelloGraphicsApplication) (f : Frame)
    (hq : app.m_quitRequested = false) (hf : f.seesQuit = false) :
    { app with m_quitRequested := app.m_quitRequested || f.seesQuit } = app := by
  cases app
  simp_all

theorem mainLoop_cons_ok (h : Host) (f : Frame) (frames : List Frame)
    (app : HelloGraphicsApplication) (tr : List Call) (hq : app.m_quitRequested = false)
    (hf : f.rendersOk) :
    mainLoop h (f :: frames) app tr =
      mainLoop h frames { app with m_quitRequested := f.seesQuit } (tr ++ frameCalls app f) := by
  simp [mainLoop, isQuitRequested, hq, run_bind, M.bind, mainLoopBody_ok h f app tr hf]

theorem mainLoop_staysOpen (h : Host) (frames : List Frame) (app : HelloGraphicsApplication)
    (tr : List Call) (hq : app.m_quitRequested = false) (hfr : staysOpen frames) :
    mainLoop h frames app tr = (.running, tr ++ frames.flatMap (frameCalls app)) := by
  induction frames generalizing tr with
  | nil => simp [mainLoop, isQuitRequested, hq, stillRunning]
  | cons g gs ih =>
    have hg := hfr g (List.mem_cons_self g gs)
    have hgs : staysOpen gs := fun x hx => hfr x (List.mem_cons_of_mem g hx)
    have happ : { app with m_quitRequested := g.seesQuit } = app := by
      cases app; simp_all
    rw [mainLoop_cons_ok h g gs app tr hq hg.1, happ, ih _ hgs]
    simp [List.flatMap_cons]

theorem mainLoop_endsByQuit (h : Host) (pre : List Frame) (f : Frame) (post : List Frame)
    (app : HelloGraphicsApplication) (tr : List Call) (hq : app.m_quitRequested = false)
    (hpre : staysOpen pre) (hf : f.rendersOk) (hfq : f.seesQuit = true) :
    mainLoop h (pre ++ f :: post) app tr =
      (.ok { app with m_quitRequested := true },
        tr ++ pre.flatMap (frameCalls app) ++ frameCalls app f) := by
  induction pre generalizing tr with
  | nil =>
    rw [List.nil_append, mainLoop_cons_ok h f post app tr hq hf, hfq,
      mainLoop_quit_now h post _ _ rfl]
    simp
  | cons g gs ih =>
    have hg := hpre g (List.mem_cons_self g gs)
    have hgs : staysOpen gs := fun x hx => hpre x (List.mem_cons_of_mem g hx)
    have happ : { app with m_quitRequested := g.seesQuit } = app := by
      cases app; simp_all
    rw [List.cons_append, mainLoop_cons_ok h g _ app tr hq hg.1, happ, ih _ hgs]
    simp [List.flatMap_cons]

theorem mainLoop_failsInLoop (h : Host) (pre : List Frame) (f : Frame) (post : List Frame)
    (app : HelloGraphicsApplication) (tr : List Call) (hq : app.m_quitRequested = false)
    (hpre : staysOpen pre) (hf : ¬ f.rendersOk) :
    (mainLoop h (pre ++ f :: post) app tr).1.isThrow = true := by
  induction pre generalizing tr with
  | nil =>
    have hb := mainLoopBody_fail h f app tr hf
    rcases hr : mainLoopBody h f app tr with ⟨o, tr'⟩
    rw [hr] at hb
    cases o <;> simp [Outcome.isThrow] at hb
    simp [mainLoop, isQuitRequested, hq, run_bind, M.bind, hr, Outcome.isThrow]
  | cons g gs ih =>
    have hg := hpre g (List.mem_cons_self g gs)
    have hgs : staysOpen gs := fun x hx => hpre x (List.mem_cons_of_mem g hx)
    have happ : { app with m_quitRequested := g.seesQuit } = app := by
      cases app; simp_all
    rw [List.cons_append, mainLoop_cons_ok h g _ app tr hq hg.1, happ]
    exact ih _ hgs

/-- Every list of frames ends the loop by a quit request, keeps it running, or fails. -/
theorem frames_cases (frames : List Frame) :
    endsByQuit frames ∨ staysOpen frames ∨ failsInLoop frames := by
  induction frames with
  | nil => right; left; intro g hg; simp at hg
  | cons g gs ih =>
    by_cases hg : g.rendersOk
    · cases hq : g.seesQuit with
      | true => left; exact ⟨[], g, gs, rfl, by simp, hg, hq⟩
      | false =>
        have hcons : ∀ pre : List Frame, staysOpen pre → staysOpen (g :: pre) := by
          intro pre hpre x hx
          rcases List.mem_cons.mp hx with rfl | hx
          · exact ⟨hg, hq⟩
          · exact hpre x hx
        rcases ih with ⟨pre, f, post, rfl, hpre, hf, hfq⟩ | hstay | ⟨pre, f, post, rfl, hpre, hf⟩
        · left; exact ⟨g :: pre, f, post, rfl, hcons pre hpre, hf, hfq⟩
        · right; left; exact hcons gs hstay
        · right; right; exact ⟨g :: pre, f, post, rfl, hcons pre hpre, hf⟩
    · right; right; exact ⟨[], g, gs, rfl, by simp, hg⟩

theorem ctor_ends (h : Host) (hs : h.setupSucceeds) (pre : List Frame) (f : Frame)
    (post : List Frame) (hfr : h.frames = pre ++ f :: post) (hpre : staysOpen pre)
    (hf : f.rendersOk) (hfq : f.seesQuit = true) :
    ∃ vfile ffile, h.fs.openForReading vertPath = some vfile ∧
      h.fs.openForReading fragPath = some ffile ∧
      ctor h [] = (.ok { readyApp h with m_quitRequested := true },
        setupCalls h vfile ffile ++ pre.flatMap (frameCalls (readyApp h)) ++
          frameCalls (readyApp h) f) := by
  obtain ⟨vfile, ffile, hv, hff, hsetup⟩ := setup_ok h hs
  refine ⟨vfile, ffile, hv, hff, ?_⟩
  have hloop := mainLoop_endsByQuit h pre f post (readyApp h) (setupCalls h vfile ffile) rfl
    hpre hf hfq
  simp only [ctor, run_bind, M.bind, hsetup, hfr, hloop]

theorem ctor_staysOpen (h : Host) (hs : h.setupSucceeds) (hfr : staysOpen h.frames) :
    ∃ vfile ffile, h.fs.openForReading vertPath = some vfile ∧
      h.fs.openForReading fragPath = some ffile ∧
      ctor h [] = (.running,
        setupCalls h vfile ffile ++ h.frames.flatMap (frameCalls (readyApp h))) := by
  obtain ⟨vfile, ffile, hv, hff, hsetup⟩ := setup_ok h hs
  refine ⟨vfile, ffile, hv, hff, ?_⟩
  have hloop := mainLoop_staysOpen h h.frames (readyApp h) (setupCalls h vfile ffile) rfl hfr
  simp only [ctor, run_bind, M.bind, hsetup, hloop]

theorem ctor_setup_fail (h : Host) (hs : ¬ h.setupSucceeds) :
    ctor h [] = setup h [] ∧ (setup h []).1.isThrow = true := by
  have hfail := (setup_fail h hs).1
  refine ⟨?_, hfail⟩
  rcases hr : setup h [] with ⟨o, tr⟩
  rw [hr] at hfail
  cases o <;> simp [Outcome.isThrow] at hfail
  simp [ctor, run_bind, M.bind, hr]

theorem ctor_failsInLoop (h : Host) (hs : h.setupSucceeds) (hfr : failsInLoop h.frames) :
    (ctor h []).1.isThrow = true := by
  obtain ⟨vfile, ffile, _, _, hsetup⟩ := setup_ok h hs
  obtain ⟨pre, f, post, hframes, hpre, hf⟩ := hfr
  have hloop := mainLoop_failsInLoop h pre f post (readyApp h) (setupCalls h vfile ffile) rfl
    hpre hf
  simpa [ctor, run_bind, M.bind, hsetup, hframes] using hloop

theorem main_of_throw (h : Host) (what : String) (tr : List Call)
    (hc : ctor h [] = (.throw what, tr)) :
    main h = { exitCode := some 1, stderr := what ++ "\n", trace := tr } := by
  simp [main, hc, EXIT_FAILURE]

theorem main_of_ok (h : Host) (app : HelloGraphicsApplication) (tr : List Call)
    (hc : ctor h [] = (.ok app, tr)) :
    main h =
      { exitCode := some 0, stderr := "", trace := tr ++ [.SDL_DestroyWindow app.m_window, .SDL_Quit] } := by
  simp [main, hc, EXIT_SUCCESS, dtor, SDL_DestroyWindow, SDL_Quit, run_bind, M.bind, call]

theorem main_of_running (h : Host) (tr : List Call) (hc : ctor h [] = (.running, tr)) :
    main h = { exitCode := none, stderr := "", trace := tr } := by
  simp [main, hc]

theorem ctor_throw_of_fail (h : Host) (hbad : ¬ h.setupSucceeds ∨ failsInLoop h.frames) :
    ∃ what tr, ctor h [] = (.throw what, tr) := by
  have hthrow : (ctor h []).1.isThrow = true := by
    by_cases hs : h.setupSucceeds
    · rcases hbad with hns | hfl
      · exact absurd hs hns
      · exact ctor_failsInLoop h hs hfl
    · have hc := ctor_setup_fail h hs
      rw [hc.1]; exact hc.2
  obtain ⟨what, hw⟩ := (isThrow_iff _).mp hthrow
  exact ⟨what, _, hw⟩

/-- How a run ends, by the answers of the host. -/
theorem main_classify (h : Host) :
    (h.setupSucceeds ∧ endsByQuit h.frames ∧ (main h).exitCode = some 0 ∧
      (main h).stderr = "") ∨
    (h.setupSucceeds ∧ staysOpen h.frames ∧ (main h).exitCode = none) ∨
    ((¬ h.setupSucceeds ∨ failsInLoop h.frames) ∧ (main h).exitCode = some 1) := by
  by_cases hs : h.setupSucceeds
  · rcases frames_cases h.frames with hq | hstay | hfl
    · left
      obtain ⟨pre, f, post, hfr, hpre, hf, hfq⟩ := hq
      obtain ⟨vfile, ffile, _, _, hc⟩ := ctor_ends h hs pre f post hfr hpre hf hfq
      rw [main_of_ok h _ _ hc]
      exact ⟨hs, ⟨pre, f, post, hfr, hpre, hf, hfq⟩, rfl, rfl⟩
    · right; left
      obtain ⟨vfile, ffile, _, _, hc⟩ := ctor_staysOpen h hs hstay
      rw [main_of_running h _ hc]
      exact ⟨hs, hstay, rfl⟩
    · right; right
      obtain ⟨what, tr, hc⟩ := ctor_throw_of_fail h (Or.inr hfl)
      rw [main_of_throw h what tr hc]
      exact ⟨Or.inr hfl, rfl⟩
  · right; right
    obtain ⟨what, tr, hc⟩ := ctor_throw_of_fail h (Or.inl hs)
    rw [main_of_throw h what tr hc]
    exact ⟨Or.inl hs, rfl⟩

/-- C1: `main` returns 0 exactly when every setup call succeeds and the loop ends by a
quit request with no failing call, and then writes nothing to standard error; it returns 1
exactly when a setup or render step raises an error, and then standard error holds the
message of that error followed by a newline; it has not returned exactly when the
supplied frames are used up with nothing failed and no quit request seen. -/
theorem C1_exit_code (h : Host) :
    ((main h).exitCode = some 0 ↔ h.setupSucceeds ∧ endsByQuit h.frames) ∧
    ((main h).exitCode = some 0 → (main h).stderr = "") ∧
    ((main h).exitCode = some 1 ↔ ¬ h.setupSucceeds ∨ failsInLoop h.frames) ∧
    ((main h).exitCode = some 1 ↔ ∃ what tr, ctor h [] = (.throw what, tr)) ∧
    (∀ what tr, ctor h [] = (.throw what, tr) →
      (main h).exitCode = some 1 ∧ (main h).stderr = what ++ "\n") ∧
    ((main h).exitCode = none ↔ h.setupSucceeds ∧ staysOpen h.frames) ∧
    ((main h).exitCode = some 0 ∨ (main h).exitCode = some 1 ∨ (main h).exitCode = none) := by
  have hcl := main_classify h
  have hthrow : ∀ what tr, ctor h [] = (.throw what, tr) →
      (main h).exitCode = some 1 ∧ (main h).stderr = what ++ "\n" := by
    intro what tr hc
    rw [main_of_throw h what tr hc]
    exact ⟨rfl, rfl⟩
  refine ⟨⟨?_, ?_⟩, ?_, ⟨?_, ?_⟩, ⟨?_, ?_⟩, hthrow, ⟨?_, ?_⟩, ?_⟩
  · intro h0
    rcases hcl with ⟨hs, hq, _, _⟩ | ⟨_, _, he⟩ | ⟨_, he⟩
    · exact ⟨hs, hq⟩
    · rw [he] at h0; cases h0
    · rw [he] at h0; cases h0
  · rintro ⟨hs, pre, f, post, hfr, hpre, hf, hfq⟩
    obtain ⟨vfile, ffile, _, _, hc⟩ := ctor_ends h hs pre f post hfr hpre hf hfq
    rw [main_of_ok h _ _ hc]
  · intro h0
    rcases hcl with ⟨_, _, _, he⟩ | ⟨_, _, he⟩ | ⟨_, he⟩
    · exact he
    · rw [he] at h0; cases h0
    · rw [he] at h0; cases h0
  · intro h1
    rcases hcl with ⟨_, _, he, _⟩ | ⟨_, _, he⟩ | ⟨hbad, _⟩
    · rw [he] at h1; cases h1
    · rw [he] at h1; cases h1
    · exact hbad
  · intro hbad
    obtain ⟨what, tr, hc⟩ := ctor_throw_of_fail h hbad
    exact (hthrow what tr hc).1
  · intro h1
    rcases hcl with ⟨_, _, he, _⟩ | ⟨_, _, he⟩ | ⟨hbad, _⟩
    · rw [he] at h1; cases h1
    · rw [he] at h1; cases h1
    · exact ctor_throw_of_fail h hbad
  · rintro ⟨what, tr, hc⟩
    exact (hthrow what tr hc).1
  · intro hn
    rcases hcl with ⟨_, _, he, _⟩ | ⟨hs, hstay, _⟩ | ⟨_, he⟩
    · rw [he] at hn; cases hn
    · exact ⟨hs, hstay⟩
    · rw [he] at hn; cases hn
  · rintro ⟨hs, hstay⟩
    obtain ⟨vfile, ffile, _, _, hc⟩ := ctor_staysOpen h hs hstay
    rw [main_of_running h _ hc]
  · rcases hcl with ⟨_, _, he, _⟩ | ⟨_, _, he⟩ | ⟨_, he⟩
    · exact Or.inl he
    · exact Or.inr (Or.inr he)
    · exact Or.inr (Or.inl he)

/-! ## Abort at the first failed call -/

@[simp] theorem noFail_nil : NoFail [] := by
  intro c hc; simp at hc

@[simp] theorem noFail_cons (c : Call) (tr : List Call) :
    NoFail (c :: tr) ↔ c.failed = false ∧ NoFail tr := by
  simp [NoFail]

@[simp] theorem noFail_append (a b : List Call) : NoFail (a ++ b) ↔ NoFail a ∧ NoFail b := by
  simp only [NoFail, List.mem_append]
  constructor
  · intro hab
    exact ⟨fun c hc => hab c (Or.inl hc), fun c hc => hab c (Or.inr hc)⟩
  · rintro ⟨ha, hb⟩ c (hc | hc)
    · exact ha c hc
    · exact hb c hc

theorem aborted_of {α : Type} (h : Host) (good : List Call) (c : Call) (e pfx what : String)
    (trace : List Call) (hgood : NoFail good) (hc : c.failed = true)
    (htrace : trace = good ++ [c, .SDL_GetError e]) (he : e = h.getError (good.length + 1))
    (hwhat : what = pfx ++ e) :
    Aborted h ((.throw what : Outcome α), trace) := by
  subst he hwhat htrace
  exact ⟨good, c, pfx, hgood, hc, rfl, rfl⟩

theorem safe_bind {α β : Type} (h : Host) (x : M α) (f : α → M β) (hx : Safe h x)
    (hf : ∀ a, Safe h (f a)) : Safe h (x >>= f) := by
  intro tr htr
  have hxr := hx tr htr
  rcases hr : x tr with ⟨o, tr'⟩
  rw [hr] at hxr
  cases o with
  | ok a =>
    rw [run_bind_ok x f tr tr' a hr]
    rcases hxr with hno | ⟨_, _, _, _, _, _, hout⟩
    · exact hf a tr' hno
    · cases hout
  | throw e =>
    rw [run_bind_throw x f tr tr' e hr]
    rcases hxr with hno | ⟨good, c, pfx, hg, hc, htr', hout⟩
    · exact Or.inl hno
    · exact Or.inr ⟨good, c, pfx, hg, hc, htr', by simpa using hout⟩
  | running =>
    rw [run_bind_running x f tr tr' hr]
    rcases hxr with hno | ⟨_, _, _, _, _, _, hout⟩
    · exact Or.inl hno
    · cases hout

theorem safe_pure {α : Type} (h : Host) (a : α) : Safe h (pure a : M α) := by
  intro tr htr
  exact Or.inl htr

theorem initSDL_safe (h : Host) : Safe h (initSDL h) := by
  intro tr htr
  rw [initSDL_run]
  split
  · left; simp [htr, Call.failed]
  · right
    exact aborted_of h tr _ _ "Could not initialize SDL. SDL error: " _ _ htr
      (by simp [Call.failed]) rfl rfl rfl

theorem createWindow_safe (h : Host) (app : HelloGraphicsApplication) :
    Safe h (createWindow h app) := by
  intro tr htr
  rw [createWindow_run]
  split
  · right
    exact aborted_of h tr _ _ "Could not create window. SDL error: " _ _ htr
      (by simp [Call.failed]) rfl rfl rfl
  · left; simp [htr, Call.failed, *]

theorem createGPUDevice_safe (h : Host) (app : HelloGraphicsApplication) :
    Safe h (createGPUDevice h app) := by
  intro tr htr
  rw [createGPUDevice_run]
  split
  · right
    exact aborted_of h tr _ _ "Could not create GPU device. SDL error: " _ _ htr
      (by simp [Call.failed]) rfl rfl rfl
  · left; simp [htr, Call.failed, *]

theorem claimWindowForGPUDevice_safe (h : Host) (app : HelloGraphicsApplication) :
    Safe h (claimWindowForGPUDevice h app) := by
  intro tr htr
  rw [claimWindowForGPUDevice_run]
  split
  · left; simp [htr, Call.failed]
  · right
    exact aborted_of h tr _ _ "Could not claim window for GPU device. SDL error: " _ _ htr
      (by simp [Call.failed]) rfl rfl rfl

theorem createShader_safe (h : Host) (app : HelloGraphicsApplication) (path : String)
    (stage : SDL_GPUShaderStage) : Safe h (createShader h app path stage) := by
  intro tr htr
  rw [createShader_run]
  cases hopen : h.fs.openForReading path with
  | none => left; simp [htr, Call.failed]
  | some file =>
    by_cases hs : h.shader stage = 0
    · right
      simp only [hs, if_true]
      exact aborted_of h (tr ++ [.ifstream_open path true])
        (.SDL_CreateGPUShader app.m_device
          { code_size := file.length, code := file, entrypoint := "main"
            format := .SDL_GPU_SHADERFORMAT_SPIRV, stage := stage } 0)
        (h.getError (tr.length + 2))
        ("Could not create GPU shader from file " ++ path ++ ". SDL error: ") _ _
        (by simp [htr, Call.failed]) (by simp [Call.failed]) (by simp) (by simp) rfl
    · left; simp [htr, Call.failed, hs]

theorem createGraphicsPipeline_safe (h : Host) (app : HelloGraphicsApplication) :
    Safe h (createGraphicsPipeline h app) := by
  unfold createGraphicsPipeline
  refine safe_bind h _ _ (createShader_safe h app _ _) (fun v => ?_)
  refine safe_bind h _ _ (createShader_safe h app _ _) (fun f => ?_)
  intro tr htr
  by_cases hp : h.pipeline = 0
  · right
    simp only [run_bind, M.bind, SDL_GetGPUSwapchainTextureFormat, SDL_CreateGPUGraphicsPipeline,
      SDL_ReleaseGPUShader, call, raise, SDL_GetError, hp, run_pure, if_true,
      List.append_assoc, List.cons_append, List.nil_append, List.length_append,
      List.length_cons, List.length_nil]
    exact aborted_of h
      (tr ++ [.SDL_GetGPUSwapchainTextureFormat app.m_device app.m_window h.swapchainFormat])
      (.SDL_CreateGPUGraphicsPipeline app.m_device
        { vertex_shader := v, fragment_shader := f
          primitive_type := .SDL_GPU_PRIMITIVETYPE_TRIANGLELIST
          color_target_format := h.swapchainFormat, num_color_targets := 1 } 0)
      (h.getError (tr.length + 2)) "Could not create GPU graphics pipeline. SDL error: " _ _
      (by simp [htr, Call.failed]) (by simp [Call.failed]) (by simp) (by simp) rfl
  · left
    simp [run_bind, M.bind, SDL_GetGPUSwapchainTextureFormat, SDL_CreateGPUGraphicsPipeline,
      SDL_ReleaseGPUShader, call, raise, SDL_GetError, hp, htr, Call.failed]

theorem noFail_pollCalls (events : List SDL_EventType) : NoFail (pollCalls events) := by
  intro c hc
  simp only [pollCalls, List.mem_append, List.mem_map, List.mem_singleton] at hc
  rcases hc with ⟨e, _, rfl⟩ | rfl <;> rfl

theorem pollEvents_safe (h : Host) (app : HelloGraphicsApplication)
    (events : List SDL_EventType) : Safe h (pollEvents app events) := by
  intro tr htr
  rw [pollEvents_run]
  left
  simp [htr, noFail_pollCalls]

theorem mainLoopBody_safe (h : Host) (f : Frame) (app : HelloGraphicsApplication) :
    Safe h (mainLoopBody h f app) := by
  unfold mainLoopBody
  refine safe_bind h _ _ (pollEvents_safe h app f.events) (fun app' => ?_)
  intro tr htr
  by_cases h1 : f.acquireOk = true
  swap
  · right
    simp only [run_bind, M.bind, SDL_AcquireGPUCommandBuffer, call, raise, SDL_GetError,
      SDL_WaitAndAcquireGPUSwapchainTexture, h1, run_pure,
      List.append_assoc, List.cons_append, List.nil_append, List.length_append,
      List.length_cons, List.length_nil]
    exact aborted_of h
      (tr ++ [.SDL_AcquireGPUCommandBuffer app'.m_device f.commandBuffer])
      (.SDL_WaitAndAcquireGPUSwapchainTexture f.commandBuffer app'.m_window false
        f.swapchainTexture)
      (h.getError (tr.length + 2)) "Could not acquire GPU swapchain texture. SDL error: " _ _
      (by simp [htr, Call.failed]) (by simp [Call.failed]) (by simp [h1]) (by simp)
      (by simp [h1])
  by_cases ht : f.swapchainTexture = 0
  · cases h3 : f.submitOk with
    | true =>
      left
      simp [run_bind, M.bind, SDL_AcquireGPUCommandBuffer, call, raise, SDL_GetError,
        SDL_WaitAndAcquireGPUSwapchainTexture, SDL_SubmitGPUCommandBuffer, h1, ht, h3, htr,
        Call.failed]
    | false =>
      right
      simp only [run_bind, M.bind, SDL_AcquireGPUCommandBuffer, call, raise, SDL_GetError,
        SDL_WaitAndAcquireGPUSwapchainTexture, SDL_SubmitGPUCommandBuffer, h1, ht, h3, run_pure,
        List.append_assoc, List.cons_append, List.nil_append, List.length_append,
        List.length_cons, List.length_nil]
      exact aborted_of h
        (tr ++ [.SDL_AcquireGPUCommandBuffer app'.m_device f.commandBuffer,
          .SDL_WaitAndAcquireGPUSwapchainTexture f.commandBuffer app'.m_window true 0])
        (.SDL_SubmitGPUCommandBuffer f.commandBuffer false)
        (h.getError (tr.length + 3)) "Could not submit GPU command buffer. SDL error: " _ _
        (by simp [htr, Call.failed]) (by simp [Call.failed]) (by simp) (by simp) (by simp)
  by_cases h2 : f.renderPass = 0
  · right
    simp [run_bind, M.bind, SDL_AcquireGPUCommandBuffer, call, raise, SDL_GetError,
      SDL_WaitAndAcquireGPUSwapchainTexture, SDL_BeginGPURenderPass, h1, ht, h2]
    exact aborted_of h
      (tr ++ [.SDL_AcquireGPUCommandBuffer app'.m_device f.commandBuffer,
        .SDL_WaitAndAcquireGPUSwapchainTexture f.commandBuffer app'.m_window true
          f.swapchainTexture])
      (.SDL_BeginGPURenderPass f.commandBuffer
        { texture := f.swapchainTexture, clear_color := (1, 2, 3, 10)
          load_op := .SDL_GPU_LOADOP_CLEAR, store_op := .SDL_GPU_STOREOP_STORE } 1 0)
      (h.getError (tr.length + 3)) "Could not begin render pass. SDL error: " _ _
      (by simp [htr, Call.failed]) (by simp [Call.failed]) (by simp) (by simp) rfl
  cases h3 : f.submitOk with
  | true =>
    left
    simp [run_bind, M.bind, SDL_AcquireGPUCommandBuffer, call, raise, SDL_GetError,
      SDL_WaitAndAcquireGPUSwapchainTexture, SDL_SubmitGPUCommandBuffer, SDL_BeginGPURenderPass,
      SDL_BindGPUGraphicsPipeline, SDL_DrawGPUPrimitives, SDL_EndGPURenderPass, h1, ht, h2, h3,
      htr, Call.failed]
  | false =>
    right
    simp [run_bind, M.bind, SDL_AcquireGPUCommandBuffer, call, raise, SDL_GetError,
      SDL_WaitAndAcquireGPUSwapchainTexture, SDL_SubmitGPUCommandBuffer, SDL_BeginGPURenderPass,
      SDL_BindGPUGraphicsPipeline, SDL_DrawGPUPrimitives, SDL_EndGPURenderPass, h1, ht, h2, h3]
    exact aborted_of h
      (tr ++ [.SDL_AcquireGPUCommandBuffer app'.m_device f.commandBuffer,
        .SDL_WaitAndAcquireGPUSwapchainTexture f.commandBuffer app'.m_window true
          f.swapchainTexture,
        .SDL_BeginGPURenderPass f.commandBuffer
          { texture := f.swapchainTexture, clear_color := (1, 2, 3, 10)
            load_op := .SDL_GPU_LOADOP_CLEAR, store_op := .SDL_GPU_STOREOP_STORE } 1
          f.renderPass,
        .SDL_BindGPUGraphicsPipeline f.renderPass app'.m_pipeline,
        .SDL_DrawGPUPrimitives f.renderPass 3 1 0 0,
        .SDL_EndGPURenderPass f.renderPass])
      (.SDL_SubmitGPUCommandBuffer f.commandBuffer false)
      (h.getError (tr.length + 7)) "Could not submit GPU command buffer. SDL error: " _ _
      (by simp [htr, Call.failed, h2]) (by simp [Call.failed]) (by simp) (by simp) rfl

theorem mainLoop_safe (h : Host) (frames : List Frame) (app : HelloGraphicsApplication) :
    Safe h (mainLoop h frames app) := by
  induction frames generalizing app with
  | nil =>
    intro tr htr
    left
    cases hq : app.m_quitRequested <;> simp [mainLoop, isQuitRequested, hq, stillRunning, htr]
  | cons f fs ih =>
    cases hq : app.m_quitRequested with
    | true =>
      intro tr htr
      left
      simp [mainLoop, isQuitRequested, hq, htr]
    | false =>
      have hstep : mainLoop h (f :: fs) app = (mainLoopBody h f app >>= fun a => mainLoop h fs a) := by
        simp [mainLoop, isQuitRequested, hq]
      rw [hstep]
      exact safe_bind h _ _ (mainLoopBody_safe h f app) (fun a => ih a)

theorem setup_safe (h : Host) : Safe h (setup h) := by
  unfold setup
  refine safe_bind h _ _ (initSDL_safe h) (fun _ => ?_)
  refine safe_bind h _ _ (createWindow_safe h _) (fun a => ?_)
  refine safe_bind h _ _ (createGPUDevice_safe h _) (fun b => ?_)
  refine safe_bind h _ _ (claimWindowForGPUDevice_safe h _) (fun _ => ?_)
  refine safe_bind h _ _ (createGraphicsPipeline_safe h _) (fun c => ?_)
  exact safe_pure h c

theorem ctor_safe (h : Host) : Safe h (ctor h) := by
  unfold ctor
  exact safe_bind h _ _ (setup_safe h) (fun a => mainLoop_safe h h.frames a)

theorem split_unique (good : List Call) (c0 : Call) (rest pre : List Call) (c : Call)
    (post : List Call) (hgood : NoFail good) (hrest : NoFail rest) (hc : c.failed = true)
    (heq : good ++ c0 :: rest = pre ++ c :: post) :
    pre = good ∧ c = c0 ∧ post = rest := by
  induction good generalizing pre with
  | nil =>
    cases pre with
    | nil =>
      simp only [List.nil_append, List.cons.injEq] at heq
      exact ⟨rfl, heq.1.symm, heq.2.symm⟩
    | cons p ps =>
      simp only [List.nil_append, List.cons_append, List.cons.injEq] at heq
      have hmem : c ∈ rest := by rw [heq.2]; simp
      have := hrest c hmem
      rw [hc] at this; cases this
  | cons g gs ih =>
    cases pre with
    | nil =>
      simp only [List.nil_append, List.cons_append, List.cons.injEq] at heq
      have := hgood g (List.mem_cons_self g gs)
      rw [heq.1, hc] at this; cases this
    | cons p ps =>
      simp only [List.cons_append, List.cons.injEq] at heq
      have hgs : NoFail gs := fun x hx => hgood x (List.mem_cons_of_mem g hx)
      obtain ⟨h1, h2, h3⟩ := ih ps hgs heq.2
      exact ⟨by rw [heq.1, h1], h2, h3⟩

theorem noFail_no_split (tr pre : List Call) (c : Call) (post : List Call) (htr : NoFail tr)
    (hc : c.failed = true) (heq : tr = pre ++ c :: post) : False := by
  have hmem : c ∈ tr := by rw [heq]; simp
  have := htr c hmem
  rw [hc] at this; cases this

/-- C2: whenever a checked call (`SDL_Init`, window, device, window claim, shader,
pipeline, swapchain texture acquisition, render pass begin, command buffer submit) gets the
failure answer, no checked call failed before it, the only call made after it in the whole
run is the one `SDL_GetError`, the process exits with code 1, and the raised message, which
is what standard error holds before the newline, ends with the string `SDL_GetError`
returned at that moment. -/
theorem C2_abort_at_first_failure (h : Host) (pre : List Call) (c : Call) (post : List Call)
    (htrace : (main h).trace = pre ++ c :: post) (hc : c.failed = true) :
    NoFail pre ∧ post = [.SDL_GetError (h.getError (pre.length + 1))] ∧
    (main h).exitCode = some 1 ∧
    ∃ pfx, (ctor h []).1 = .throw (pfx ++ h.getError (pre.length + 1)) ∧
      (main h).stderr = pfx ++ h.getError (pre.length + 1) ++ "\n" := by
  have hsafe := ctor_safe h [] noFail_nil
  rcases hr : ctor h [] with ⟨o, tr⟩
  rw [hr] at hsafe
  rcases hsafe with hno | ⟨good, c0, pfx, hgood, hc0, htr, hout⟩
  · exfalso
    cases o with
    | ok app =>
      rw [main_of_ok h app tr hr] at htrace
      refine noFail_no_split _ pre c post ?_ hc htrace
      simp [hno, Call.failed]
    | throw what =>
      rw [main_of_throw h what tr hr] at htrace
      exact noFail_no_split _ pre c post hno hc htrace
    | running =>
      rw [main_of_running h tr hr] at htrace
      exact noFail_no_split _ pre c post hno hc htrace
  · simp only at htr hout
    subst hout
    rw [main_of_throw h _ tr hr] at htrace ⊢
    simp only at htrace
    rw [htr] at htrace
    obtain ⟨h1, _, h3⟩ := split_unique good c0 _ pre c post hgood
      (by simp [Call.failed]) hc htrace
    subst h1
    exact ⟨hgood, h3, rfl, pfx, rfl, rfl⟩

/-- Each of the eight failure points of C2 is reached on a host where it is the first call
to fail: the process exits with code 1, standard error holds the message of that point
ending with the string of `SDL_GetError`, and the trace ends with the failed call and the
one `SDL_GetError`. -/
theorem failure_points_reached :
    (main { goodHost with init := false }).stderr =
      "Could not initialize SDL. SDL error: boom\n" ∧
    (main { goodHost with window := 0 }).stderr =
      "Could not create window. SDL error: boom\n" ∧
    (main { goodHost with device := 0 }).stderr =
      "Could not create GPU device. SDL error: boom\n" ∧
    (main { goodHost with shader := fun _ => 0 }).stderr =
      "Could not create GPU shader from file ../shaders/bin/triangle.vert.spv. SDL error: boom\n" ∧
    (main { goodHost with pipeline := 0 }).stderr =
      "Could not create GPU graphics pipeline. SDL error: boom\n" ∧
    (main { goodHost with frames := [{ quietFrame with acquireOk := false }] }).stderr =
      "Could not acquire GPU swapchain texture. SDL error: boom\n" ∧
    (main { goodHost with frames := [{ quietFrame with renderPass := 0 }] }).stderr =
      "Could not begin render pass. SDL error: boom\n" ∧
    (main { goodHost with frames := [{ quietFrame with submitOk := false }] }).stderr =
      "Could not submit GPU command buffer. SDL error: boom\n" ∧
    (main { goodHost with init := false }).trace =
      [.SDL_Init [.SDL_INIT_VIDEO, .SDL_INIT_EVENTS] false, .SDL_GetError "boom"] ∧
    (main { goodHost with frames := [{ quietFrame with renderPass := 0 }] }).trace.drop 12 =
      [ .SDL_PollEvent (some (.other 1024)), .SDL_PollEvent none,
        .SDL_AcquireGPUCommandBuffer 20 41,
        .SDL_WaitAndAcquireGPUSwapchainTexture 41 10 true 51,
        .SDL_BeginGPURenderPass 41
          { texture := 51, clear_color := (1, 2, 3, 10)
            load_op := .SDL_GPU_LOADOP_CLEAR, store_op := .SDL_GPU_STOREOP_STORE } 1 0,
        .SDL_GetError "boom" ] := by
  set_option maxRecDepth 100000 in decide

/-- The submit of the first frame fails on `submitFailsHost`: the run stops after the one
`SDL_GetError` and exits with code 1. -/
theorem C2_abort_at_first_failure_witness :
    (main submitFailsHost).trace =
      (setupCalls submitFailsHost [3, 2, 35, 7] [3, 2, 35, 7, 0] ++
        [.SDL_PollEvent none, .SDL_AcquireGPUCommandBuffer 20 40,
          .SDL_WaitAndAcquireGPUSwapchainTexture 40 10 true 0]) ++
        Call.SDL_SubmitGPUCommandBuffer 40 false :: [.SDL_GetError "boom"] ∧
    (Call.SDL_SubmitGPUCommandBuffer 40 false).failed = true ∧
    (main submitFailsHost).exitCode = some 1 ∧
    (main submitFailsHost).stderr = "Could not submit GPU command buffer. SDL error: boom\n" :=
  have htrace : (main submitFailsHost).trace =
      (setupCalls submitFailsHost [3, 2, 35, 7] [3, 2, 35, 7, 0] ++
        [.SDL_PollEvent none, .SDL_AcquireGPUCommandBuffer 20 40,
          .SDL_WaitAndAcquireGPUSwapchainTexture 40 10 true 0]) ++
        Call.SDL_SubmitGPUCommandBuffer 40 false :: [.SDL_GetError "boom"] := by
    set_option maxRecDepth 100000 in decide
  have hthm := C2_abort_at_first_failure submitFailsHost _ _ _ htrace rfl
  ⟨htrace, rfl, hthm.2.2.1, by set_option maxRecDepth 100000 in decide⟩

theorem names_mid (a p b : String) : names (a ++ p ++ b) p := by
  unfold names
  exact ⟨a.data, b.data, by simp⟩

theorem append_newline_ne_empty (what : String) : what ++ "\n" ≠ "" := by
  intro hempty
  have hlen := congrArg String.length hempty
  rw [String.length_append] at hlen
  have hnl : "\n".length = 1 := rfl
  have hz : "".length = 0 := rfl
  omega

theorem main_setup_fail (h : Host) (hs : ¬ h.setupSucceeds) :
    (main h).exitCode = some 1 ∧ (main h).stderr ≠ "" ∧
      ∀ c ∈ (main h).trace, c.isLoopCall = false := by
  obtain ⟨hthrow, hcalls⟩ := setup_fail h hs
  have hctor := (ctor_setup_fail h hs).1
  rcases hr : setup h [] with ⟨o, tr⟩
  rw [hr] at hthrow hcalls
  cases o <;> simp [Outcome.isThrow] at hthrow
  rw [hr] at hctor
  rw [main_of_throw h _ tr hctor]
  exact ⟨rfl, append_newline_ne_empty _, hcalls⟩

/-- C3 as stated fails: on a host where the four first setup calls succeed, the vertex
file opens but SDL rejects the vertex shader, and the fragment file cannot be opened, the
text on standard error does not name the fragment file. -/
theorem C3_counterexample :
    vertRejectedHost.init = true ∧ vertRejectedHost.window ≠ 0 ∧ vertRejectedHost.device ≠ 0 ∧
    vertRejectedHost.claim = true ∧
    vertRejectedHost.fs.openForReading "../shaders/bin/triangle.vert.spv" ≠ none ∧
    vertRejectedHost.fs.openForReading "../shaders/bin/triangle.frag.spv" = none ∧
    (main vertRejectedHost).stderr =
      "Could not create GPU shader from file ../shaders/bin/triangle.vert.spv. SDL error: boom\n" ∧
    ¬ names (main vertRejectedHost).stderr "../shaders/bin/triangle.frag.spv" := by
  set_option maxRecDepth 100000 in decide

/-- C3, amended: when SDL init, window creation, device creation and window claiming
succeed and one of the two shader files cannot be opened, the process exits with code 1,
standard error is not empty, and no call of the loop is made.  Standard error is the
"could not open" message naming the vertex file when that file cannot be opened, and the
one naming the fragment file when the vertex file opens, the vertex shader is created, and
the fragment file cannot be opened. -/
theorem C3_missing_shader_file (h : Host) (hinit : h.init = true) (hwin : h.window ≠ 0)
    (hdev : h.device ≠ 0) (hclaim : h.claim = true)
    (hmissing : h.fs.openForReading "../shaders/bin/triangle.vert.spv" = none ∨
      h.fs.openForReading "../shaders/bin/triangle.frag.spv" = none) :
    (main h).exitCode = some 1 ∧ (main h).stderr ≠ "" ∧
    (∀ c ∈ (main h).trace, c.isLoopCall = false) ∧
    (h.fs.openForReading "../shaders/bin/triangle.vert.spv" = none →
      (main h).stderr = "Could not open file ../shaders/bin/triangle.vert.spv for reading.\n" ∧
      names (main h).stderr "../shaders/bin/triangle.vert.spv") ∧
    (h.fs.openForReading "../shaders/bin/triangle.vert.spv" ≠ none →
      h.shader .SDL_GPU_SHADERSTAGE_VERTEX ≠ 0 →
      (main h).stderr = "Could not open file ../shaders/bin/triangle.frag.spv for reading.\n" ∧
      names (main h).stderr "../shaders/bin/triangle.frag.spv") := by
  have hs : ¬ h.setupSucceeds := by
    rintro ⟨_, _, _, _, h5, _, h7, _, _⟩
    rcases hmissing with hm | hm
    · simp [vertPath, hm] at h5
    · simp [fragPath, hm] at h7
  obtain ⟨hexit, hne, hloop⟩ := main_setup_fail h hs
  refine ⟨hexit, hne, hloop, ?_, ?_⟩
  · intro hv
    have hctor : ctor h [] = (.throw "Could not open file ../shaders/bin/triangle.vert.spv for reading.",
        [ .SDL_Init [.SDL_INIT_VIDEO, .SDL_INIT_EVENTS] true,
          .SDL_CreateWindow "Hello, Graphics Application" 1024 576 [.SDL_WINDOW_RESIZABLE] h.window,
          .SDL_CreateGPUDevice .SDL_GPU_SHADERFORMAT_SPIRV (!h.NDEBUG) none h.device,
          .SDL_ClaimWindowForGPUDevice h.device h.window true,
          .ifstream_open "../shaders/bin/triangle.vert.spv" false ]) := by
      simp [ctor, setup, run_bind, M.bind, initSDL_run, createWindow_run, createGPUDevice_run,
        claimWindowForGPUDevice_run, createGraphicsPipeline, createShader_run, hinit, hwin,
        hdev, hclaim, hv, fresh]
    rw [main_of_throw h _ _ hctor]
    exact ⟨rfl, names_mid "Could not open file " _ " for reading.\n"⟩
  · intro hv hvs
    have hf : h.fs.openForReading "../shaders/bin/triangle.frag.spv" = none := by
      rcases hmissing with hm | hm
      · exact absurd hm hv
      · exact hm
    obtain ⟨vfile, hvfile⟩ := Option.ne_none_iff_exists'.mp hv
    have hctor : ctor h [] = (.throw "Could not open file ../shaders/bin/triangle.frag.spv for reading.",
        [ .SDL_Init [.SDL_INIT_VIDEO, .SDL_INIT_EVENTS] true,
          .SDL_CreateWindow "Hello, Graphics Application" 1024 576 [.SDL_WINDOW_RESIZABLE] h.window,
          .SDL_CreateGPUDevice .SDL_GPU_SHADERFORMAT_SPIRV (!h.NDEBUG) none h.device,
          .SDL_ClaimWindowForGPUDevice h.device h.window true,
          .ifstream_open "../shaders/bin/triangle.vert.spv" true,
          .SDL_CreateGPUShader h.device
            { code_size := vfile.length, code := vfile, entrypoint := "main"
              format := .SDL_GPU_SHADERFORMAT_SPIRV, stage := .SDL_GPU_SHADERSTAGE_VERTEX }
            (h.shader .SDL_GPU_SHADERSTAGE_VERTEX),
          .ifstream_open "../shaders/bin/triangle.frag.spv" false ]) := by
      simp [ctor, setup, run_bind, M.bind, initSDL_run, createWindow_run, createGPUDevice_run,
        claimWindowForGPUDevice_run, createGraphicsPipeline, createShader_run, hinit, hwin,
        hdev, hclaim, hvfile, hvs, hf, fresh]
    rw [main_of_throw h _ _ hctor]
    exact ⟨rfl, names_mid "Could not open file " _ " for reading.\n"⟩

/-- The fragment file is missing on `fragMissingHost`: exit code 1 and the message naming
that file. -/
theorem C3_missing_shader_file_witness :
    fragMissingHost.init = true ∧ fragMissingHost.window ≠ 0 ∧ fragMissingHost.device ≠ 0 ∧
    fragMissingHost.claim = true ∧
    fragMissingHost.fs.openForReading "../shaders/bin/triangle.frag.spv" = none ∧
    (main fragMissingHost).exitCode = some 1 ∧
    (main fragMissingHost).stderr =
      "Could not open file ../shaders/bin/triangle.frag.spv for reading.\n" :=
  have hthm := C3_missing_shader_file fragMissingHost (by decide) (by decide) (by decide)
    (by decide) (Or.inr (by decide))
  ⟨by decide, by decide, by decide, by decide, by decide, hthm.1,
    (hthm.2.2.2.2 (by decide) (by decide)).1⟩

/-- C4: on the clean run of `closeAtOnceHost` the window, the GPU device and the graphics
pipeline are each created once; after the loop the only calls are `SDL_DestroyWindow` and
`SDL_Quit`, so the window is destroyed once and no call releases the device or the
pipeline. -/
theorem C4_clean_run_releases_only_window :
    main closeAtOnceHost =
      { exitCode := some 0, stderr := "", trace :=
          [ .SDL_Init [.SDL_INIT_VIDEO, .SDL_INIT_EVENTS] true,
            .SDL_CreateWindow "Hello, Graphics Application" 1024 576 [.SDL_WINDOW_RESIZABLE] 10,
            .SDL_CreateGPUDevice .SDL_GPU_SHADERFORMAT_SPIRV false none 20,
            .SDL_ClaimWindowForGPUDevice 20 10 true,
            .ifstream_open "../shaders/bin/triangle.vert.spv" true,
            .SDL_CreateGPUShader 20
              { code_size := 4, code := [3, 2, 35, 7], entrypoint := "main"
                format := .SDL_GPU_SHADERFORMAT_SPIRV, stage := .SDL_GPU_SHADERSTAGE_VERTEX } 30,
            .ifstream_open "../shaders/bin/triangle.frag.spv" true,
            .SDL_CreateGPUShader 20
              { code_size := 5, code := [3, 2, 35, 7, 0], entrypoint := "main"
                format := .SDL_GPU_SHADERFORMAT_SPIRV, stage := .SDL_GPU_SHADERSTAGE_FRAGMENT } 31,
            .SDL_GetGPUSwapchainTextureFormat 20 10 5,
            .SDL_CreateGPUGraphicsPipeline 20
              { vertex_shader := 30, fragment_shader := 31
                primitive_type := .SDL_GPU_PRIMITIVETYPE_TRIANGLELIST
                color_target_format := 5, num_color_targets := 1 } 70,
            .SDL_ReleaseGPUShader 20 30,
            .SDL_ReleaseGPUShader 20 31,
            .SDL_PollEvent (some (.other 1024)),
            .SDL_PollEvent (some .SDL_EVENT_WINDOW_CLOSE_REQUESTED),
            .SDL_PollEvent none,
            .SDL_AcquireGPUCommandBuffer 20 40,
            .SDL_WaitAndAcquireGPUSwapchainTexture 40 10 true 50,
            .SDL_BeginGPURenderPass 40
              { texture := 50, clear_color := (1, 2, 3, 10)
                load_op := .SDL_GPU_LOADOP_CLEAR, store_op := .SDL_GPU_STOREOP_STORE } 1 60,
            .SDL_BindGPUGraphicsPipeline 60 70,
            .SDL_DrawGPUPrimitives 60 3 1 0 0,
            .SDL_EndGPURenderPass 60,
            .SDL_SubmitGPUCommandBuffer 40 true,
            .SDL_DestroyWindow 10,
            .SDL_Quit ] } := by
  set_option maxRecDepth 100000 in decide

/-- C6: on `nullCommandBufferHost` the call `SDL_AcquireGPUCommandBuffer` answers `NULL`;
no error is raised, the process exits with code 0, and the null command buffer is passed
to `SDL_WaitAndAcquireGPUSwapchainTexture`, `SDL_BeginGPURenderPass` and
`SDL_SubmitGPUCommandBuffer`. -/
theorem C6_null_command_buffer_unchecked :
    (main nullCommandBufferHost).exitCode = some 0 ∧
    (main nullCommandBufferHost).stderr = "" ∧
    (main nullCommandBufferHost).trace.drop 12 =
      [ .SDL_PollEvent (some (.other 1024)),
        .SDL_PollEvent (some .SDL_EVENT_WINDOW_CLOSE_REQUESTED),
        .SDL_PollEvent none,
        .SDL_AcquireGPUCommandBuffer 20 0,
        .SDL_WaitAndAcquireGPUSwapchainTexture 0 10 true 50,
        .SDL_BeginGPURenderPass 0
          { texture := 50, clear_color := (1, 2, 3, 10)
            load_op := .SDL_GPU_LOADOP_CLEAR, store_op := .SDL_GPU_STOREOP_STORE } 1 60,
        .SDL_BindGPUGraphicsPipeline 60 70,
        .SDL_DrawGPUPrimitives 60 3 1 0 0,
        .SDL_EndGPURenderPass 60,
        .SDL_SubmitGPUCommandBuffer 0 true,
        .SDL_DestroyWindow 10,
        .SDL_Quit ] := by
  set_option maxRecDepth 100000 in decide

theorem isLoopCall_setupCalls (h : Host) (vfile ffile : List Byte) :
    ∀ c ∈ setupCalls h vfile ffile, c.isLoopCall = false := by
  intro c hc
  simp only [setupCalls, List.mem_cons, List.mem_singleton, List.not_mem_nil, or_false] at hc
  rcases hc with rfl | rfl | rfl | rfl | rfl | rfl | rfl | rfl | rfl | rfl | rfl | rfl <;> rfl

theorem isLoopCall_frameCalls (app : HelloGraphicsApplication) (f : Frame) :
    ∀ c ∈ frameCalls app f, c.isLoopCall = true := by
  intro c hc
  simp only [frameCalls, renderCalls, passCalls, pollCalls, List.mem_append, List.mem_map,
    List.mem_cons, List.mem_singleton, List.not_mem_nil, or_false] at hc
  rcases hc with (⟨e, _, rfl⟩ | rfl) | ((rfl | rfl) | hpass) | rfl
  · rfl
  · rfl
  · rfl
  · rfl
  · split at hpass
    · simp only [List.mem_cons, List.mem_singleton, List.not_mem_nil, or_false] at hpass
      rcases hpass with rfl | rfl | rfl | rfl <;> rfl
    · simp at hpass
  · rfl

theorem isLoopCall_teardownCalls (h : Host) : ∀ c ∈ teardownCalls h, c.isLoopCall = false := by
  intro c hc
  simp only [teardownCalls, List.mem_cons, List.mem_singleton, List.not_mem_nil, or_false] at hc
  rcases hc with rfl | rfl <;> rfl

theorem isLoopCall_flatMap (app : HelloGraphicsApplication) (frames : List Frame) :
    ∀ c ∈ frames.flatMap (frameCalls app), c.isLoopCall = true := by
  intro c hc
  obtain ⟨f, _, hcf⟩ := List.mem_flatMap.mp hc
  exact isLoopCall_frameCalls app f c hcf

theorem filter_setup_loop_teardown (setupPart loopPart teardownPart : List Call)
    (hsetup : ∀ c ∈ setupPart, c.isLoopCall = false)
    (hloop : ∀ c ∈ loopPart, c.isLoopCall = true)
    (hteardown : ∀ c ∈ teardownPart, c.isLoopCall = false) :
    (setupPart ++ loopPart ++ teardownPart).filter (fun c => !c.isLoopCall) =
      setupPart ++ teardownPart := by
  have h1 : setupPart.filter (fun c => !c.isLoopCall) = setupPart :=
    List.filter_eq_self.mpr (fun c hc => by simp [hsetup c hc])
  have h2 : loopPart.filter (fun c => !c.isLoopCall) = [] :=
    List.filter_eq_nil_iff.mpr (fun c hc => by simp [hloop c hc])
  have h3 : teardownPart.filter (fun c => !c.isLoopCall) = teardownPart :=
    List.filter_eq_self.mpr (fun c hc => by simp [hteardown c hc])
  rw [List.filter_append, List.filter_append, h1, h2, h3, List.append_nil]

/-- C5: on a run that ends with no failed step (exit code 0) the trace is the twelve setup
calls in their fixed order (init, window, device, claim, vertex file, vertex shader,
fragment file, fragment shader, swapchain format, pipeline, two shader releases), then the
calls of the loop iterations, frame by frame up to the frame that sees the quit request,
then `SDL_DestroyWindow` and `SDL_Quit`; while the loop is still running the trace is the
setup calls followed by the loop iterations.  Setup and teardown calls are not loop calls
and loop calls are not setup or teardown calls, so each setup and teardown call occurs
exactly once, before and after the loop. -/
theorem C5_call_order (h : Host) :
    ((main h).exitCode = some 0 →
      ∃ vfile ffile pre f post,
        h.fs.openForReading "../shaders/bin/triangle.vert.spv" = some vfile ∧
        h.fs.openForReading "../shaders/bin/triangle.frag.spv" = some ffile ∧
        h.frames = pre ++ f :: post ∧
        (main h).trace =
          setupCalls h vfile ffile ++ (pre ++ [f]).flatMap (frameCalls (readyApp h)) ++
            teardownCalls h ∧
        (main h).trace.filter (fun c => !c.isLoopCall) =
          setupCalls h vfile ffile ++ teardownCalls h) ∧
    ((main h).exitCode = none →
      ∃ vfile ffile,
        h.fs.openForReading "../shaders/bin/triangle.vert.spv" = some vfile ∧
        h.fs.openForReading "../shaders/bin/triangle.frag.spv" = some ffile ∧
        (main h).trace =
          setupCalls h vfile ffile ++ h.frames.flatMap (frameCalls (readyApp h))) ∧
    (∀ vfile ffile, ∀ c ∈ setupCalls h vfile ffile, c.isLoopCall = false) ∧
    (∀ f, ∀ c ∈ frameCalls (readyApp h) f, c.isLoopCall = true) ∧
    (∀ c ∈ teardownCalls h, c.isLoopCall = false) := by
  refine ⟨?_, ?_, isLoopCall_setupCalls h, isLoopCall_frameCalls (readyApp h),
    isLoopCall_teardownCalls h⟩
  · intro h0
    rcases main_classify h with ⟨hs, hq, _, _⟩ | ⟨_, _, he⟩ | ⟨_, he⟩
    · obtain ⟨pre, f, post, hfr, hpre, hf, hfq⟩ := hq
      obtain ⟨vfile, ffile, hv, hff, hc⟩ := ctor_ends h hs pre f post hfr hpre hf hfq
      have htrace : (main h).trace =
          setupCalls h vfile ffile ++ (pre ++ [f]).flatMap (frameCalls (readyApp h)) ++
            teardownCalls h := by
        rw [main_of_ok h _ _ hc]
        simp [teardownCalls, readyApp, List.flatMap_append]
      refine ⟨vfile, ffile, pre, f, post, hv, hff, hfr, htrace, ?_⟩
      rw [htrace]
      exact filter_setup_loop_teardown _ _ _ (isLoopCall_setupCalls h vfile ffile)
        (isLoopCall_flatMap (readyApp h) _) (isLoopCall_teardownCalls h)
    · rw [he] at h0; cases h0
    · rw [he] at h0; cases h0
  · intro hn
    rcases main_classify h with ⟨_, _, he, _⟩ | ⟨hs, hstay, _⟩ | ⟨_, he⟩
    · rw [he] at hn; cases hn
    · obtain ⟨vfile, ffile, hv, hff, hc⟩ := ctor_staysOpen h hs hstay
      refine ⟨vfile, ffile, hv, hff, ?_⟩
      rw [main_of_running h _ hc]
    · rw [he] at hn; cases hn

/-- C8 as stated fails: a frame whose swapchain texture is acquired as `NULL` completes
without error, and it begins no render pass and issues no draw call. -/
theorem C8_counterexample :
    mainLoopBody goodHost minimizedFrame (readyApp goodHost) [] =
      (.ok (readyApp goodHost),
        [ .SDL_PollEvent none,
          .SDL_AcquireGPUCommandBuffer 20 40,
          .SDL_WaitAndAcquireGPUSwapchainTexture 40 10 true 0,
          .SDL_SubmitGPUCommandBuffer 40 true ]) := by
  decide

/-- C8, amended: a loop iteration that completes without error and acquires a non-null
swapchain texture makes, after its polls, exactly these calls: acquire the command buffer,
acquire the texture, begin one render pass on that texture with load operation CLEAR and
store operation STORE, bind the pipeline, draw 3 vertices and 1 instance from vertex 0
and instance 0, end the pass, submit the command buffer.  When the acquired texture is null
it makes no render pass and no draw call, and only submits the command buffer. -/
theorem C8_frame_draws_triangle (h : Host) (f : Frame) (app app' : HelloGraphicsApplication)
    (tr tr' : List Call) (hrun : mainLoopBody h f app tr = (.ok app', tr')) :
    (f.swapchainTexture ≠ 0 →
      tr' = tr ++ pollCalls f.events ++
        [ .SDL_AcquireGPUCommandBuffer app.m_device f.commandBuffer,
          .SDL_WaitAndAcquireGPUSwapchainTexture f.commandBuffer app.m_window true
            f.swapchainTexture,
          .SDL_BeginGPURenderPass f.commandBuffer
            { texture := f.swapchainTexture, clear_color := (1, 2, 3, 10)
              load_op := .SDL_GPU_LOADOP_CLEAR, store_op := .SDL_GPU_STOREOP_STORE } 1
            f.renderPass,
          .SDL_BindGPUGraphicsPipeline f.renderPass app.m_pipeline,
          .SDL_DrawGPUPrimitives f.renderPass 3 1 0 0,
          .SDL_EndGPURenderPass f.renderPass,
          .SDL_SubmitGPUCommandBuffer f.commandBuffer true ]) ∧
    (f.swapchainTexture = 0 →
      tr' = tr ++ pollCalls f.events ++
        [ .SDL_AcquireGPUCommandBuffer app.m_device f.commandBuffer,
          .SDL_WaitAndAcquireGPUSwapchainTexture f.commandBuffer app.m_window true 0,
          .SDL_SubmitGPUCommandBuffer f.commandBuffer true ]) := by
  have hf : f.rendersOk := by
    by_contra hnot
    have hthrow := mainLoopBody_fail h f app tr hnot
    rw [hrun] at hthrow
    simp [Outcome.isThrow] at hthrow
  rw [mainLoopBody_ok h f app tr hf] at hrun
  have htr : tr' = tr ++ frameCalls app f := (Prod.mk.inj hrun).2.symm
  constructor
  · intro ht
    rw [htr]
    simp [frameCalls, renderCalls, passCalls, ht]
  · intro ht
    rw [htr]
    simp [frameCalls, renderCalls, passCalls, ht]

/-- The closing frame of `goodHost` acquires a non-null texture and draws the triangle. -/
theorem C8_frame_draws_triangle_witness :
    ∃ app' tr',
      mainLoopBody goodHost closingFrame (readyApp goodHost) [] = (.ok app', tr') ∧
      closingFrame.swapchainTexture ≠ 0 ∧
      tr' = [] ++ pollCalls closingFrame.events ++
        [ .SDL_AcquireGPUCommandBuffer (readyApp goodHost).m_device closingFrame.commandBuffer,
          .SDL_WaitAndAcquireGPUSwapchainTexture closingFrame.commandBuffer
            (readyApp goodHost).m_window true closingFrame.swapchainTexture,
          .SDL_BeginGPURenderPass closingFrame.commandBuffer
            { texture := closingFrame.swapchainTexture, clear_color := (1, 2, 3, 10)
              load_op := .SDL_GPU_LOADOP_CLEAR, store_op := .SDL_GPU_STOREOP_STORE } 1
            closingFrame.renderPass,
          .SDL_BindGPUGraphicsPipeline closingFrame.renderPass (readyApp goodHost).m_pipeline,
          .SDL_DrawGPUPrimitives closingFrame.renderPass 3 1 0 0,
          .SDL_EndGPURenderPass closingFrame.renderPass,
          .SDL_SubmitGPUCommandBuffer closingFrame.commandBuffer true ] :=
  have hrun : mainLoopBody goodHost closingFrame (readyApp goodHost) [] =
      (.ok { readyApp goodHost with m_quitRequested := true },
        [ .SDL_PollEvent (some (.other 1024)),
          .SDL_PollEvent (some .SDL_EVENT_WINDOW_CLOSE_REQUESTED),
          .SDL_PollEvent none,
          .SDL_AcquireGPUCommandBuffer 20 40,
          .SDL_WaitAndAcquireGPUSwapchainTexture 40 10 true 50,
          .SDL_BeginGPURenderPass 40
            { texture := 50, clear_color := (1, 2, 3, 10)
              load_op := .SDL_GPU_LOADOP_CLEAR, store_op := .SDL_GPU_STOREOP_STORE } 1 60,
          .SDL_BindGPUGraphicsPipeline 60 70,
          .SDL_DrawGPUPrimitives 60 3 1 0 0,
          .SDL_EndGPURenderPass 60,
          .SDL_SubmitGPUCommandBuffer 40 true ]) := by decide
  ⟨_, _, hrun, by decide,
    (C8_frame_draws_triangle goodHost closingFrame (readyApp goodHost) _ [] _ hrun).1
      (by decide)⟩

theorem setup_ok_inv (h : Host) (app : HelloGraphicsApplication) (tr : List Call)
    (hsetup : setup h [] = (.ok app, tr)) : h.setupSucceeds ∧ app = readyApp h := by
  have hs : h.setupSucceeds := by
    by_contra hnot
    have hthrow := (setup_fail h hnot).1
    rw [hsetup] at hthrow
    simp [Outcome.isThrow] at hthrow
  obtain ⟨vfile, ffile, _, _, hok⟩ := setup_ok h hs
  rw [hsetup] at hok
  exact ⟨hs, (Outcome.ok.inj (Prod.mk.inj hok).1)⟩

/-- C9: the quit flag is false in the fresh object and still false when setup has
succeeded.  `pollEvents` polls every pending event and then finds the queue empty; after
it the flag is true exactly when it was true before or some polled event has type
`SDL_EVENT_QUIT` or `SDL_EVENT_WINDOW_CLOSE_REQUESTED`, and the three handles are
unchanged.  When no call fails, the loop runs the frames before the one that sees the quit
request, then the whole of that frame (its polls, then its acquire, its render pass when
the texture is non-null, and its submit), and returns there with the flag set, whatever
frames the host could still
supply; entered with the flag set, the loop returns at once. -/
theorem C9_quit_flag (h : Host) :
    fresh.m_quitRequested = false ∧
    (∀ app tr, setup h [] = (.ok app, tr) → app.m_quitRequested = false) ∧
    (∀ (app : HelloGraphicsApplication) (events : List SDL_EventType) (tr : List Call),
      ∃ app', pollEvents app events tr = (.ok app', tr ++ pollCalls events) ∧
        (app'.m_quitRequested = true ↔ app.m_quitRequested = true ∨
          ∃ e ∈ events, e = .SDL_EVENT_QUIT ∨ e = .SDL_EVENT_WINDOW_CLOSE_REQUESTED) ∧
        app'.m_window = app.m_window ∧ app'.m_device = app.m_device ∧
        app'.m_pipeline = app.m_pipeline) ∧
    (∀ (pre : List Frame) (f : Frame) (post : List Frame) (app : HelloGraphicsApplication)
      (tr : List Call), app.m_quitRequested = false → staysOpen pre → f.rendersOk →
      f.seesQuit = true →
      mainLoop h (pre ++ f :: post) app tr =
        (.ok { app with m_quitRequested := true },
          tr ++ pre.flatMap (frameCalls app) ++ (pollCalls f.events ++ renderCalls app f))) ∧
    (∀ (frames : List Frame) (app : HelloGraphicsApplication) (tr : List Call),
      app.m_quitRequested = true → mainLoop h frames app tr = (.ok app, tr)) := by
  refine ⟨rfl, ?_, ?_, ?_, ?_⟩
  · intro app tr hsetup
    rw [(setup_ok_inv h app tr hsetup).2]
    rfl
  · intro app events tr
    refine ⟨_, pollEvents_run events app tr, ?_, rfl, rfl, rfl⟩
    simp [SDL_EventType.asksQuit]
  · intro pre f post app tr hq hpre hf hfq
    exact mainLoop_endsByQuit h pre f post app tr hq hpre hf hfq
  · intro frames app tr hq
    exact mainLoop_quit_now h frames app tr hq

/-- On `goodHost` the loop runs the quiet frame, then the whole closing frame, and returns
without touching the frame after it. -/
theorem C9_quit_flag_witness :
    staysOpen [quietFrame] ∧ closingFrame.rendersOk ∧ closingFrame.seesQuit = true ∧
    mainLoop goodHost ([quietFrame] ++ closingFrame :: [quietFrame]) (readyApp goodHost) [] =
      (.ok { readyApp goodHost with m_quitRequested := true },
        [] ++ [quietFrame].flatMap (frameCalls (readyApp goodHost)) ++
          (pollCalls closingFrame.events ++ renderCalls (readyApp goodHost) closingFrame)) :=
  ⟨by decide, by decide, by decide,
    (C9_quit_flag goodHost).2.2.2.1 [quietFrame] closingFrame [quietFrame] (readyApp goodHost) []
      rfl (by decide) (by decide) (by decide)⟩

/-- C10: `readFile` raises an error exactly when the file does not exist or is not
readable.  Otherwise it returns a buffer as long as the file whose bytes are the bytes of
the file in order, and `createShader` passes that buffer and its length to
`SDL_CreateGPUShader` with entry point "main", format SPIR-V and the given stage, whatever
the bytes are; the only call it may make after that is `SDL_GetError`. -/
theorem C10_readFile (h : Host) (app : HelloGraphicsApplication) (path : String)
    (stage : SDL_GPUShaderStage) (tr : List Call) :
    ((∃ what, (readFile h.fs path tr).1 = .throw what) ↔
      (h.fs.contents path = none ∨ h.fs.readable path = false)) ∧
    (∀ file, h.fs.contents path = some file → h.fs.readable path = true →
      (∃ buffer, readFile h.fs path tr = (.ok buffer, tr ++ [.ifstream_open path true]) ∧
        buffer.length = file.length ∧ buffer = file) ∧
      ∃ rest, (createShader h app path stage tr).2 =
          tr ++ [ .ifstream_open path true,
            .SDL_CreateGPUShader app.m_device
              { code_size := file.length, code := file, entrypoint := "main"
                format := .SDL_GPU_SHADERFORMAT_SPIRV, stage := stage } (h.shader stage) ] ++
            rest ∧
        (rest = [] ∨ ∃ e, rest = [.SDL_GetError e])) := by
  constructor
  · rw [readFile_run]
    unfold FileSystem.openForReading
    cases hr : h.fs.readable path <;> cases hc : h.fs.contents path <;> simp
  · intro file hc hr
    have hopen : h.fs.openForReading path = some file := by
      simp [FileSystem.openForReading, hr, hc]
    constructor
    · refine ⟨file, ?_, rfl, rfl⟩
      rw [readFile_run, hopen]
    · rw [createShader_run, hopen]
      by_cases hs : h.shader stage = 0
      · exact ⟨[.SDL_GetError (h.getError (tr.length + 2))], by simp [hs], Or.inr ⟨_, rfl⟩⟩
      · exact ⟨[], by simp [hs], Or.inl rfl⟩

/-- Reading the vertex shader file of `goodHost` returns its four bytes. -/
theorem C10_readFile_witness :
    goodHost.fs.contents "../shaders/bin/triangle.vert.spv" = some [3, 2, 35, 7] ∧
    goodHost.fs.readable "../shaders/bin/triangle.vert.spv" = true ∧
    ∃ buffer, readFile goodHost.fs "../shaders/bin/triangle.vert.spv" [] =
        (.ok buffer, [] ++ [.ifstream_open "../shaders/bin/triangle.vert.spv" true]) ∧
      buffer.length = [(3 : Byte), 2, 35, 7].length ∧ buffer = [3, 2, 35, 7] :=
  ⟨by decide, by decide,
    ((C10_readFile goodHost (readyApp goodHost) "../shaders/bin/triangle.vert.spv"
      .SDL_GPU_SHADERSTAGE_VERTEX []).2 [3, 2, 35, 7] (by decide) (by decide)).1⟩

/-- The clean run of `goodHost` has the shape setup, loop iterations, teardown. -/
theorem C5_call_order_witness :
    (main goodHost).exitCode = some 0 ∧
    ∃ vfile ffile pre f post,
      goodHost.fs.openForReading "../shaders/bin/triangle.vert.spv" = some vfile ∧
      goodHost.fs.openForReading "../shaders/bin/triangle.frag.spv" = some ffile ∧
      goodHost.frames = pre ++ f :: post ∧
      (main goodHost).trace =
        setupCalls goodHost vfile ffile ++ (pre ++ [f]).flatMap (frameCalls (readyApp goodHost)) ++
          teardownCalls goodHost ∧
      (main goodHost).trace.filter (fun c => !c.isLoopCall) =
        setupCalls goodHost vfile ffile ++ teardownCalls goodHost :=
  ⟨by decide, (C5_call_order goodHost).1 (by decide)⟩

/-! ## The handles in the loop -/

theorem usesFieldsOf_pollCalls (app : HelloGraphicsApplication) (events : List SDL_EventType) :
    ∀ c ∈ pollCalls events, c.usesFieldsOf app := by
  intro c hc
  simp only [pollCalls, List.mem_append, List.mem_map, List.mem_singleton] at hc
  rcases hc with ⟨e, _, rfl⟩ | rfl <;> exact trivial

theorem keeps_intro (app : HelloGraphicsApplication) (x : M HelloGraphicsApplication)
    (hx : ∀ tr, tr <+: (x tr).2 ∧ (∀ c ∈ (x tr).2.drop tr.length, c.usesFieldsOf app) ∧
      ∀ app', (x tr).1 = .ok app' → sameHandles app app') : Keeps app x := by
  intro tr
  obtain ⟨⟨calls, hcalls⟩, huse, hok⟩ := hx tr
  refine ⟨calls, hcalls.symm, ?_, hok⟩
  rw [← hcalls, List.drop_left] at huse
  exact huse

theorem mainLoopBody_keeps (h : Host) (f : Frame) (app0 app : HelloGraphicsApplication)
    (hsame : sameHandles app0 app) : Keeps app0 (mainLoopBody h f app) := by
  obtain ⟨hw, hd, hp⟩ := hsame
  apply keeps_intro
  intro tr
  have hpoll := usesFieldsOf_pollCalls app0 f.events
  by_cases h1 : f.acquireOk = true
  swap
  · simp [mainLoopBody, run_bind, M.bind, pollEvents_run, SDL_AcquireGPUCommandBuffer, call,
      SDL_WaitAndAcquireGPUSwapchainTexture, raise, SDL_GetError, h1,
      hw, hd, hp, sameHandles, or_imp, forall_and, hpoll]
    exact ⟨hpoll, by simp [Call.usesFieldsOf]⟩
  by_cases ht : f.swapchainTexture = 0
  · cases h3 : f.submitOk <;>
    · simp [mainLoopBody, run_bind, M.bind, pollEvents_run, SDL_AcquireGPUCommandBuffer, call,
        SDL_WaitAndAcquireGPUSwapchainTexture, SDL_SubmitGPUCommandBuffer, raise, SDL_GetError,
        h1, ht, h3, hw, hd, hp, sameHandles, or_imp, forall_and, hpoll]
      exact ⟨hpoll, by simp [Call.usesFieldsOf]⟩
  by_cases h2 : f.renderPass = 0
  · simp [mainLoopBody, run_bind, M.bind, pollEvents_run, SDL_AcquireGPUCommandBuffer, call,
      SDL_WaitAndAcquireGPUSwapchainTexture, SDL_BeginGPURenderPass, raise, SDL_GetError,
      h1, ht, h2, hw, hd, hp, sameHandles, or_imp, forall_and, hpoll]
    exact ⟨hpoll, by simp [Call.usesFieldsOf]⟩
  cases h3 : f.submitOk <;>
  · simp [mainLoopBody, run_bind, M.bind, pollEvents_run, SDL_AcquireGPUCommandBuffer, call,
      SDL_WaitAndAcquireGPUSwapchainTexture, SDL_BeginGPURenderPass,
      SDL_BindGPUGraphicsPipeline, SDL_DrawGPUPrimitives, SDL_EndGPURenderPass,
      SDL_SubmitGPUCommandBuffer, raise, SDL_GetError,
      h1, ht, h2, h3, hw, hd, hp, sameHandles, or_imp, forall_and, hpoll]
    exact ⟨hpoll, by simp [Call.usesFieldsOf]⟩

theorem mainLoop_keeps (h : Host) (frames : List Frame) (app0 app : HelloGraphicsApplication)
    (hsame : sameHandles app0 app) : Keeps app0 (mainLoop h frames app) := by
  induction frames generalizing app with
  | nil =>
    intro tr
    refine ⟨[], ?_, by simp, ?_⟩
    · cases hq : app.m_quitRequested <;> simp [mainLoop, isQuitRequested, hq, stillRunning]
    · intro app' hok
      cases hq : app.m_quitRequested
      · simp [mainLoop, isQuitRequested, hq, stillRunning] at hok
      · simp [mainLoop, isQuitRequested, hq] at hok
        rw [← hok]; exact hsame
  | cons f fs ih =>
    intro tr
    cases hq : app.m_quitRequested with
    | true =>
      refine ⟨[], by simp [mainLoop, isQuitRequested, hq], by simp, ?_⟩
      intro app' hok
      simp [mainLoop, isQuitRequested, hq] at hok
      rw [← hok]; exact hsame
    | false =>
      have hstep : mainLoop h (f :: fs) app tr =
          (mainLoopBody h f app >>= fun a => mainLoop h fs a) tr := by
        simp [mainLoop, isQuitRequested, hq]
      obtain ⟨calls, htr, huse, hok⟩ := mainLoopBody_keeps h f app0 app hsame tr
      rcases hr : mainLoopBody h f app tr with ⟨o, tr1⟩
      rw [hr] at htr hok
      simp only at htr hok
      cases o with
      | ok a =>
        rw [hstep, run_bind_ok _ _ tr tr1 a hr]
        obtain ⟨calls2, htr2, huse2, hok2⟩ := ih a (hok a rfl) tr1
        refine ⟨calls ++ calls2, ?_, ?_, hok2⟩
        · rw [htr2, htr, List.append_assoc]
        · intro c hc
          rcases List.mem_append.mp hc with hc | hc
          · exact huse c hc
          · exact huse2 c hc
      | throw e =>
        rw [hstep, run_bind_throw _ _ tr tr1 e hr]
        exact ⟨calls, htr, huse, by intro app' hcontra; cases hcontra⟩
      | running =>
        rw [hstep, run_bind_running _ _ tr tr1 hr]
        exact ⟨calls, htr, huse, by intro app' hcontra; cases hcontra⟩

theorem dtor_run (app : HelloGraphicsApplication) (tr : List Call) :
    dtor app tr = (.ok (), tr ++ [.SDL_DestroyWindow app.m_window, .SDL_Quit]) := by
  simp [dtor, SDL_DestroyWindow, SDL_Quit, run_bind, M.bind, call]

/-- C7: when every setup step has returned, the window, device and pipeline fields are
non-null.  From there the loop, on any frames, only adds calls whose window, device and
pipeline arguments are those field values, the object it returns has the same three
values, and the destructor destroys that same window; so every call of the run after
setup, the destructor included, is made with these non-null handles. -/
theorem C7_handles_non_null (h : Host) (app : HelloGraphicsApplication) (tr : List Call)
    (hsetup : setup h [] = (.ok app, tr)) :
    app.m_window ≠ 0 ∧ app.m_device ≠ 0 ∧ app.m_pipeline ≠ 0 ∧
    (∀ frames tr0, ∃ calls, (mainLoop h frames app tr0).2 = tr0 ++ calls ∧
      (∀ c ∈ calls, c.usesFieldsOf app) ∧
      ∀ app', (mainLoop h frames app tr0).1 = .ok app' →
        app'.m_window = app.m_window ∧ app'.m_device = app.m_device ∧
        app'.m_pipeline = app.m_pipeline ∧
        ∀ tr1, dtor app' tr1 = (.ok (), tr1 ++ [.SDL_DestroyWindow app.m_window, .SDL_Quit])) ∧
    (∃ rest, (main h).trace = tr ++ rest ∧ ∀ c ∈ rest, c.usesFieldsOf app) := by
  obtain ⟨hs, happ⟩ := setup_ok_inv h app tr hsetup
  obtain ⟨_, hw, hd, _, _, _, _, _, hp⟩ := hs
  have hloop : ∀ frames tr0, ∃ calls, (mainLoop h frames app tr0).2 = tr0 ++ calls ∧
      (∀ c ∈ calls, c.usesFieldsOf app) ∧
      ∀ app', (mainLoop h frames app tr0).1 = .ok app' →
        app'.m_window = app.m_window ∧ app'.m_device = app.m_device ∧
        app'.m_pipeline = app.m_pipeline ∧
        ∀ tr1, dtor app' tr1 =
          (.ok (), tr1 ++ [.SDL_DestroyWindow app.m_window, .SDL_Quit]) := by
    intro frames tr0
    obtain ⟨calls, htr, huse, hok⟩ := mainLoop_keeps h frames app app ⟨rfl, rfl, rfl⟩ tr0
    refine ⟨calls, htr, huse, ?_⟩
    intro app' happ'
    obtain ⟨h1, h2, h3⟩ := hok app' happ'
    refine ⟨h1, h2, h3, ?_⟩
    intro tr1
    rw [dtor_run, h1]
  refine ⟨?_, ?_, ?_, hloop, ?_⟩
  · rw [happ]; exact hw
  · rw [happ]; exact hd
  · rw [happ]; exact hp
  · obtain ⟨calls, htr, huse, hok⟩ := hloop h.frames tr
    have hctor : ctor h [] = mainLoop h h.frames app tr := by
      unfold ctor
      exact run_bind_ok _ _ [] tr app hsetup
    rcases hr : mainLoop h h.frames app tr with ⟨o, tr'⟩
    rw [hr] at htr hok hctor
    simp only at htr hok
    subst htr
    cases o with
    | ok app' =>
      obtain ⟨h1, _, _, _⟩ := hok app' rfl
      rw [main_of_ok h app' _ hctor, h1]
      refine ⟨calls ++ [.SDL_DestroyWindow app.m_window, .SDL_Quit], by simp, ?_⟩
      intro c hc
      rcases List.mem_append.mp hc with hc | hc
      · exact huse c hc
      · simp only [List.mem_cons, List.mem_singleton, List.not_mem_nil, or_false] at hc
        rcases hc with rfl | rfl <;> simp [Call.usesFieldsOf]
    | throw what =>
      rw [main_of_throw h what _ hctor]
      exact ⟨calls, rfl, huse⟩
    | running =>
      rw [main_of_running h _ hctor]
      exact ⟨calls, rfl, huse⟩

/-- Setup succeeds on `goodHost`, and every later call of the run uses its three non-null
handles. -/
theorem C7_handles_non_null_witness :
    setup goodHost [] = (.ok (readyApp goodHost),
      setupCalls goodHost [3, 2, 35, 7] [3, 2, 35, 7, 0]) ∧
    (readyApp goodHost).m_window ≠ 0 ∧ (readyApp goodHost).m_device ≠ 0 ∧
    (readyApp goodHost).m_pipeline ≠ 0 ∧
    ∃ rest, (main goodHost).trace = setupCalls goodHost [3, 2, 35, 7] [3, 2, 35, 7, 0] ++ rest ∧
      ∀ c ∈ rest, c.usesFieldsOf (readyApp goodHost) :=
  have hsetup : setup goodHost [] = (.ok (readyApp goodHost),
      setupCalls goodHost [3, 2, 35, 7] [3, 2, 35, 7, 0]) := by decide
  have hthm := C7_handles_non_null goodHost _ _ hsetup
  ⟨hsetup, hthm.1, hthm.2.1, hthm.2.2.1, hthm.2.2.2.2⟩

end BlueBall
